import Mathlib

/-!
Shallow embedding of the LifeThing wallpaper simulation core
(source: src/src/App.tsx).

Modelling conventions:
* JavaScript numbers are modelled as exact arithmetic: integers as Nat/Int
  and fractional computations as rationals.
* Math.round is modelled by jsRound (round half toward positive infinity,
  which is the JavaScript behaviour on the values reached here).
* Math.random draws are modelled by explicit oracle parameters: every
  theorem is universally quantified over the oracle, hence holds for every
  possible sequence of random draws.
* Grids are row-major lists of rows, as in the source (grid[x][y] with x a
  row index); grid height is grid.length and grid width is grid[0].length,
  exactly as the source computes them.
* React state setters inside one gameLoop invocation do not change the
  local variables captured by the closure; the tick model therefore reads
  pre-tick values wherever the source reads a closure variable, and the
  final state collects the last value written by each setter.
-/

/-- RGB color with integer channels, as produced by the source
(all stored channels are results of Math.floor or Math.round). -/
structure CellColor where
  r : ℤ
  g : ℤ
  b : ℤ
deriving DecidableEq, Repr

/-- Cell of the colored grid: alive flag with optional color and age. -/
structure ColoredCell where
  alive : Bool
  color : Option CellColor
  age : Option ℕ
deriving DecidableEq, Repr

/-- Plain boolean grid (standard mode). -/
abbrev GridState := List (List Bool)

/-- Colored grid (color mode). -/
abbrev ColoredGridState := List (List ColoredCell)

/-- The value a fresh colored grid cell starts from, and the value JavaScript
indexing yields semantically for a missing cell (undefined is falsy and has
no color or age). -/
def deadCell : ColoredCell := { alive := false, color := none, age := none }

/-- Two-dimensional read, grid[x][y], with a default for missing cells. -/
def get2 (g : List (List α)) (d : α) (x y : ℕ) : α :=
  (g.getD x []).getD y d

/-- Two-dimensional write, grid[x][y] = v (no-op out of range, which never
happens in the source because random indices are below the dimensions). -/
def set2 (g : List (List α)) (x y : ℕ) (v : α) : List (List α) :=
  g.set x ((g.getD x []).set y v)

/-- JavaScript Math.round on an exact rational: floor(q + 1/2). -/
def jsRound (q : ℚ) : ℤ := ⌊q + 1 / 2⌋

/-- Settings fields used by the simulation core (App.tsx GameSettings),
with the foreground color already parsed to RGB. -/
structure GameSettings where
  simulation_speed : ℚ
  fade_amount : ℚ
  stable_display_time : ℚ
  edge_wrapping : Bool
  cell_size : ℚ
  cell_padding : ℚ
  bottom_margin : ℚ
  color_mode : Bool
  try_revive_stuck_sim : Bool
  hard_reset_on_stuck : Bool
  max_revival_attempts : ℕ
  neighbor_opacity_enabled : Bool
  neighbor_opacity_increment : ℚ
  random_color_pure : Bool
  max_saturation_age : ℕ
  saturation_factor : ℚ
  foreground : CellColor

/-- Source fibonacci (App.tsx lines 179-187): the iterative loop computes
fib(0)=1, fib(1)=1, fib(n)=fib(n-1)+fib(n-2). -/
def fibonacci (n : ℕ) : ℕ :=
  match n with
  | 0 => 1
  | 1 => 1
  | n + 2 => fibonacci (n + 1) + fibonacci n

/-- Source generateTweakedColor (lines 197-206): the random channel choice
and the coin flip for the extreme value are oracle parameters. -/
def generateTweakedColor (base : CellColor) (channel : Fin 3) (high : Bool) : CellColor :=
  let extremeValue : ℤ := if high then 255 else 0
  match channel with
  | 0 => { base with r := extremeValue }
  | 1 => { base with g := extremeValue }
  | 2 => { base with b := extremeValue }

/-- Source averageColors (lines 208-222). -/
def averageColors (colors : List CellColor) : CellColor :=
  if colors.length = 0 then { r := 255, g := 255, b := 255 }
  else
    let sum := colors.foldl
      (fun acc c => { r := acc.r + c.r, g := acc.g + c.g, b := acc.b + c.b })
      ({ r := 0, g := 0, b := 0 } : CellColor)
    { r := jsRound ((sum.r : ℚ) / (colors.length : ℚ)),
      g := jsRound ((sum.g : ℚ) / (colors.length : ℚ)),
      b := jsRound ((sum.b : ℚ) / (colors.length : ℚ)) }

/-- The scale the source computes inside enhanceColorSaturation
(lines 225-227): 1 + (min(age, maxAge) / maxAge) * saturation_factor. -/
def saturationScale (cfg : GameSettings) (age : ℕ) : ℚ :=
  1 + ((min age cfg.max_saturation_age : ℕ) : ℚ) / (cfg.max_saturation_age : ℚ)
    * cfg.saturation_factor

/-- Source enhanceColorSaturation (lines 224-242): push each channel away
from the channel mean by the age-dependent scale, clamp to [0,255], round. -/
def enhanceColorSaturation (cfg : GameSettings) (color : CellColor) (age : ℕ) : CellColor :=
  let scale := saturationScale cfg age
  let center : ℚ := ((color.r : ℚ) + (color.g : ℚ) + (color.b : ℚ)) / 3
  let enhanceChannel := fun (ch : ℤ) =>
    jsRound (max 0 (min 255 (center + ((ch : ℚ) - center) * scale)))
  { r := enhanceChannel color.r, g := enhanceChannel color.g, b := enhanceChannel color.b }

/-- JavaScript (age || 1): 1 when age is undefined or 0, otherwise age. -/
def jsAgeOr1 (a : Option ℕ) : ℕ :=
  match a with
  | some n => if n = 0 then 1 else n
  | none => 1

/-- Source averageColorsWeighted (lines 244-264): each color weighted by
(ages[index] || 1); mismatched lengths fall back to the unweighted average. -/
def averageColorsWeighted (colors : List CellColor) (ages : List ℕ) : CellColor :=
  if colors.length = 0 then { r := 255, g := 255, b := 255 }
  else if colors.length ≠ ages.length then averageColors colors
  else
    let weights : List ℕ := ages.map (fun a => if a = 0 then 1 else a)
    let totalWeight : ℕ := weights.foldl (· + ·) 0
    let weightedSum := (colors.zip weights).foldl
      (fun acc cw =>
        { r := acc.r + cw.1.r * (cw.2 : ℤ),
          g := acc.g + cw.1.g * (cw.2 : ℤ),
          b := acc.b + cw.1.b * (cw.2 : ℤ) })
      ({ r := 0, g := 0, b := 0 } : CellColor)
    { r := jsRound ((weightedSum.r : ℚ) / (totalWeight : ℚ)),
      g := jsRound ((weightedSum.g : ℚ) / (totalWeight : ℚ)),
      b := jsRound ((weightedSum.b : ℚ) / (totalWeight : ℚ)) }

/-- The eight neighbor offsets in the order the nested loops of
countNeighbors visit them (i, j from -1 to 1, skipping 0,0). -/
def neighborOffsets : List (Int × Int) :=
  [(-1, -1), (-1, 0), (-1, 1), (0, -1), (0, 1), (1, -1), (1, 0), (1, 1)]

/-- Toroidal index: (n + i + len) % len as the source computes it
(the dividend is nonnegative, so JavaScript remainder agrees). -/
def wrapIndex (n : ℕ) (i : Int) (len : ℕ) : ℕ :=
  (((n : Int) + i + (len : Int)) % (len : Int)).toNat

/-- Source countNeighbors (lines 292-315). -/
def countNeighbors (wrap : Bool) (g : GridState) (x y : ℕ) : ℕ :=
  let height := g.length
  let width := (g.headD []).length
  neighborOffsets.foldl
    (fun count off =>
      if wrap then
        if get2 g false (wrapIndex x off.1 height) (wrapIndex y off.2 width)
        then count + 1 else count
      else
        let nx : Int := (x : Int) + off.1
        let ny : Int := (y : Int) + off.2
        if nx < 0 ∨ (height : Int) ≤ nx ∨ ny < 0 ∨ (width : Int) ≤ ny then count
        else if get2 g false nx.toNat ny.toNat then count + 1 else count)
    0

/-- Result record of countNeighborsColored: live-with-color neighbor count
together with the collected colors and ages. -/
structure NeighborData where
  count : ℕ
  colors : List CellColor
  ages : List ℕ
deriving DecidableEq, Repr

/-- Source countNeighborsColored (lines 317-347): counts neighbors that are
alive and have a color, collecting their colors and (age || 1) values. -/
def countNeighborsColored (wrap : Bool) (g : ColoredGridState) (x y : ℕ) : NeighborData :=
  let height := g.length
  let width := (g.headD []).length
  let step := fun (acc : NeighborData) (cell : ColoredCell) =>
    match cell.color with
    | some c =>
      if cell.alive then
        { count := acc.count + 1, colors := acc.colors ++ [c],
          ages := acc.ages ++ [jsAgeOr1 cell.age] }
      else acc
    | none => acc
  neighborOffsets.foldl
    (fun acc off =>
      if wrap then
        step acc (get2 g deadCell (wrapIndex x off.1 height) (wrapIndex y off.2 width))
      else
        let nx : Int := (x : Int) + off.1
        let ny : Int := (y : Int) + off.2
        if nx < 0 ∨ (height : Int) ≤ nx ∨ ny < 0 ∨ (width : Int) ≤ ny then acc
        else step acc (get2 g deadCell nx.toNat ny.toNat))
    { count := 0, colors := [], ages := [] }

/-- Source nextGeneration (lines 349-368): the new grid starts all dead and
a cell is set alive exactly when the birth/survival rule fires. -/
def nextGeneration (wrap : Bool) (g : GridState) : GridState :=
  let height := g.length
  let width := (g.headD []).length
  (List.range height).map fun x =>
    (List.range width).map fun y =>
      let neighbors := countNeighbors wrap g x y
      let isAlive := get2 g false x y
      (isAlive && (neighbors == 2 || neighbors == 3)) || (!isAlive && neighbors == 3)

/-- Outcomes of the random draws a newborn cell makes in
nextGenerationColored: the mutation-chance comparison, the pure random
color, and the tweaked-color channel and coin flip. -/
structure BirthRand where
  useRandom : Bool
  randColor : CellColor
  tweakChannel : Fin 3
  tweakHigh : Bool

/-- Source nextGenerationColored (lines 370-413), with the per-cell random
draws supplied by the oracle rnd. -/
def nextGenerationColored (cfg : GameSettings) (rnd : ℕ → ℕ → BirthRand)
    (g : ColoredGridState) : ColoredGridState :=
  let height := g.length
  let width := (g.headD []).length
  (List.range height).map fun x =>
    (List.range width).map fun y =>
      let nd := countNeighborsColored cfg.edge_wrapping g x y
      let cell := get2 g deadCell x y
      let currentAge := jsAgeOr1 cell.age
      if cell.alive && (nd.count == 2 || nd.count == 3) then
        { alive := true,
          color := cell.color.map (fun c => enhanceColorSaturation cfg c currentAge),
          age := some (currentAge + 1) }
      else if !cell.alive && nd.count == 3 then
        let b := rnd x y
        let cellColor :=
          if !b.useRandom then averageColorsWeighted nd.colors nd.ages
          else if cfg.random_color_pure then b.randColor
          else generateTweakedColor (averageColorsWeighted nd.colors nd.ages)
            b.tweakChannel b.tweakHigh
        { alive := true, color := some cellColor, age := some 1 }
      else deadCell

/-- Source gridToString (lines 415-417), as the row-major list of the
characters of the fingerprint string. -/
def gridToString (g : GridState) : List Char :=
  (g.map fun row => row.map fun cell => if cell then '1' else '0').flatten

/-- Source coloredGridToString (lines 419-421). -/
def coloredGridToString (g : ColoredGridState) : List Char :=
  (g.map fun row => row.map fun cell => if cell.alive then '1' else '0').flatten

/-- Live-cell test of a plain grid (grid.some(row => row.some(cell => cell))). -/
def hasLiveCells (g : GridState) : Bool :=
  g.any fun row => row.any id

/-- Live-cell test of a colored grid. -/
def hasLiveCellsColored (g : ColoredGridState) : Bool :=
  g.any fun row => row.any (·.alive)

/-- Shared body of isSimulationStuck (lines 423-441) after the fingerprint
and the live-cell test have been computed: an empty grid is stuck (history
untouched); a repeated fingerprint is stuck (history untouched); otherwise
the fingerprint is pushed and the oldest entry shifted out above capacity
10. Returns the verdict and the updated history. -/
def stuckStep (history : List (List Char)) (live : Bool) (s : List Char) :
    Bool × List (List Char) :=
  if !live then (true, history)
  else if history.contains s then (true, history)
  else
    let pushed := history ++ [s]
    (false, if 10 < pushed.length then pushed.tail else pushed)

/-- Source isSimulationStuck specialised to a plain grid
(the color_mode = false dispatch of lines 423-441). -/
def isSimulationStuck (history : List (List Char)) (g : GridState) :
    Bool × List (List Char) :=
  stuckStep history (hasLiveCells g) (gridToString g)

/-- Source isSimulationStuck specialised to a colored grid
(the color_mode = true dispatch of lines 423-441). -/
def isSimulationStuckColored (history : List (List Char)) (g : ColoredGridState) :
    Bool × List (List Char) :=
  stuckStep history (hasLiveCellsColored g) (coloredGridToString g)

/-- History evolution over a sequence of isSimulationStuck calls. -/
def runStuck (history : List (List Char)) (gs : List GridState) : List (List Char) :=
  gs.foldl (fun h g => (isSimulationStuck h g).2) history

/-- Source flipRandomCells (lines 443-455): count iterations, each toggling
the cell at the oracle-chosen position of the grid mutated so far. -/
def flipRandomCells (g : GridState) (count : ℕ) (pick : ℕ → ℕ × ℕ) : GridState :=
  (List.range count).foldl
    (fun acc i =>
      let x := (pick i).1
      let y := (pick i).2
      set2 acc x y (!(get2 acc false x y)))
    g

/-- Source flipRandomCellsColored (lines 457-474): a cell flipped to alive
receives a fresh random color and age 1; a cell flipped to dead loses both. -/
def flipRandomCellsColored (g : ColoredGridState) (count : ℕ)
    (pick : ℕ → ℕ × ℕ) (pickColor : ℕ → CellColor) : ColoredGridState :=
  (List.range count).foldl
    (fun acc i =>
      let x := (pick i).1
      let y := (pick i).2
      let currentCell := get2 acc deadCell x y
      set2 acc x y
        { alive := !currentCell.alive,
          color := if !currentCell.alive then some (pickColor i) else none,
          age := if !currentCell.alive then some 1 else none })
    g

/-- Source createRandomGrid (lines 273-277), with the per-cell population
draws supplied by the oracle. -/
def createRandomGrid (width height : ℕ) (aliveAt : ℕ → ℕ → Bool) : GridState :=
  (List.range height).map fun x => (List.range width).map fun y => aliveAt x y

/-- Source createRandomColoredGrid (lines 279-290). -/
def createRandomColoredGrid (width height : ℕ) (aliveAt : ℕ → ℕ → Bool)
    (colorAt : ℕ → ℕ → CellColor) : ColoredGridState :=
  (List.range height).map fun x =>
    (List.range width).map fun y =>
      let alive := aliveAt x y
      { alive := alive,
        color := if alive then some (colorAt x y) else none,
        age := if alive then some 1 else none }

/-- Source calculateGridDimensions (lines 266-271), with the viewport size
passed in place of the window globals. Returns (width, height). -/
def calculateGridDimensions (cfg : GameSettings) (innerWidth innerHeight : ℚ) : ℕ × ℕ :=
  let availableHeight := innerHeight - cfg.bottom_margin
  let w := ⌊innerWidth / (cfg.cell_size + cfg.cell_padding)⌋
  let h := ⌊availableHeight / (cfg.cell_size + cfg.cell_padding)⌋
  ((max 1 w).toNat, (max 1 h).toNat)

/-- State owned by the gameLoop closure and refs: both grid representations,
both fade targets, the fade flag and timestamps, the fingerprint history and
the recovery counters (App.tsx lines 79-91). -/
structure SimState where
  grid : GridState
  coloredGrid : ColoredGridState
  targetGrid : GridState
  targetColoredGrid : ColoredGridState
  isFading : Bool
  lastUpdate : ℚ
  fadeStartTime : ℚ
  history : List (List Char)
  stuckCounter : ℕ
  fibonacciIndex : ℕ

/-- Outcomes of every random draw a single tick may make: the newborn draws
of the first nextGenerationColored call, the draws of the recomputation in
the zero-fade commit, the population and color draws of a fresh random
grid, and the position and color draws of flipRandomCells. -/
structure TickRand where
  birth : ℕ → ℕ → BirthRand
  birthCommit : ℕ → ℕ → BirthRand
  freshAlive : ℕ → ℕ → Bool
  freshColor : ℕ → ℕ → CellColor
  flipPos : ℕ → ℕ × ℕ
  flipColor : ℕ → CellColor

/-- The full-reset action of the color-mode gameLoop branches
(e.g. lines 653-662): zero the counters, clear the history, replace the
displayed colored grid by a fresh random grid of the recomputed dimensions,
clear the fade target, stop fading, stamp lastUpdate. -/
def resetColored (cfg : GameSettings) (st : SimState) (o : TickRand)
    (innerW innerH ts : ℚ) : SimState :=
  let dims := calculateGridDimensions cfg innerW innerH
  { st with
    stuckCounter := 0, history := [], fibonacciIndex := 0,
    coloredGrid := createRandomColoredGrid dims.1 dims.2 o.freshAlive o.freshColor,
    targetColoredGrid := [], isFading := false, lastUpdate := ts }

/-- The full-reset action of the standard-mode gameLoop branches
(e.g. lines 726-735). -/
def resetStandard (cfg : GameSettings) (st : SimState) (o : TickRand)
    (innerW innerH ts : ℚ) : SimState :=
  let dims := calculateGridDimensions cfg innerW innerH
  { st with
    stuckCounter := 0, history := [], fibonacciIndex := 0,
    grid := createRandomGrid dims.1 dims.2 o.freshAlive,
    targetGrid := [], isFading := false, lastUpdate := ts }

/-- Lines 794-807 in color mode: either start a fade, or commit immediately
when no fade time is configured. The commit reads the closure variables of
the tick (stOld), so it uses the pre-tick target grid, or recomputes a next
generation with fresh randomness when that target is empty. -/
def finishColored (cfg : GameSettings) (stOld stNew : SimState) (o : TickRand)
    (ts : ℚ) : SimState :=
  let fadeTime := cfg.simulation_speed * cfg.fade_amount
  if 0 < cfg.fade_amount ∧ 0 < fadeTime then
    { stNew with isFading := true, fadeStartTime := ts, lastUpdate := ts }
  else
    { stNew with
      coloredGrid :=
        if stOld.targetColoredGrid.length ≠ 0 then stOld.targetColoredGrid
        else nextGenerationColored cfg o.birthCommit stOld.coloredGrid,
      targetColoredGrid := [], lastUpdate := ts }

/-- Lines 794-807 in standard mode; the oracle parameter mirrors the
colored variant but the standard recomputation draws no randomness. -/
def finishStandard (cfg : GameSettings) (stOld stNew : SimState) (_o : TickRand)
    (ts : ℚ) : SimState :=
  let fadeTime := cfg.simulation_speed * cfg.fade_amount
  if 0 < cfg.fade_amount ∧ 0 < fadeTime then
    { stNew with isFading := true, fadeStartTime := ts, lastUpdate := ts }
  else
    { stNew with
      grid :=
        if stOld.targetGrid.length ≠ 0 then stOld.targetGrid
        else nextGeneration cfg.edge_wrapping stOld.grid,
      targetGrid := [], lastUpdate := ts }

/-- Generation-advance phase of the color-mode branch (lines 646-718):
step, classify with the stuck detector, then reset, accept, or perturb. -/
def updateColored (cfg : GameSettings) (st : SimState) (o : TickRand)
    (innerW innerH ts : ℚ) : SimState :=
  let nextGrid := nextGenerationColored cfg o.birth st.coloredGrid
  let res := isSimulationStuckColored st.history nextGrid
  if res.1 then
    if cfg.hard_reset_on_stuck then resetColored cfg st o innerW innerH ts
    else if !(hasLiveCellsColored nextGrid) then resetColored cfg st o innerW innerH ts
    else if !cfg.try_revive_stuck_sim then
      finishColored cfg st { st with history := res.2, targetColoredGrid := nextGrid } o ts
    else
      let sc := st.stuckCounter + 1
      if cfg.max_revival_attempts < sc then resetColored cfg st o innerW innerH ts
      else
        let cellsToFlip := fibonacci st.fibonacciIndex
        let totalCells := st.coloredGrid.length * (st.coloredGrid.headD []).length
        if (totalCells : ℚ) / 3 < (cellsToFlip : ℚ) then
          resetColored cfg st o innerW innerH ts
        else
          finishColored cfg st
            { st with
              history := res.2, stuckCounter := sc,
              fibonacciIndex := st.fibonacciIndex + 1,
              targetColoredGrid :=
                flipRandomCellsColored nextGrid cellsToFlip o.flipPos o.flipColor }
            o ts
  else
    finishColored cfg st
      { st with
        history := res.2, stuckCounter := 0, fibonacciIndex := 0,
        targetColoredGrid := nextGrid }
      o ts

/-- Generation-advance phase of the standard-mode branch (lines 719-792). -/
def updateStandard (cfg : GameSettings) (st : SimState) (o : TickRand)
    (innerW innerH ts : ℚ) : SimState :=
  let nextGrid := nextGeneration cfg.edge_wrapping st.grid
  let res := isSimulationStuck st.history nextGrid
  if res.1 then
    if cfg.hard_reset_on_stuck then resetStandard cfg st o innerW innerH ts
    else if !(hasLiveCells nextGrid) then resetStandard cfg st o innerW innerH ts
    else if !cfg.try_revive_stuck_sim then
      finishStandard cfg st { st with history := res.2, targetGrid := nextGrid } o ts
    else
      let sc := st.stuckCounter + 1
      if cfg.max_revival_attempts < sc then resetStandard cfg st o innerW innerH ts
      else
        let cellsToFlip := fibonacci st.fibonacciIndex
        let totalCells := st.grid.length * (st.grid.headD []).length
        if (totalCells : ℚ) / 3 < (cellsToFlip : ℚ) then
          resetStandard cfg st o innerW innerH ts
        else
          finishStandard cfg st
            { st with
              history := res.2, stuckCounter := sc,
              fibonacciIndex := st.fibonacciIndex + 1,
              targetGrid := flipRandomCells nextGrid cellsToFlip o.flipPos }
            o ts
  else
    finishStandard cfg st
      { st with
        history := res.2, stuckCounter := 0, fibonacciIndex := 0,
        targetGrid := nextGrid }
      o ts

/-- One invocation of gameLoop (lines 622-839) restricted to its effect on
SimState (rendering has no state effect). An empty active grid makes the
tick a no-op; when the cycle time has elapsed and no fade is running, the
generation advances; otherwise a running fade past progress 1 commits the
target into the displayed grid. The update phase never reaches the fade
section in the same tick because the closure captured isFading = false. -/
def gameLoopTick (cfg : GameSettings) (st : SimState) (o : TickRand)
    (innerW innerH ts : ℚ) : SimState :=
  if (if cfg.color_mode then st.coloredGrid.isEmpty else st.grid.isEmpty) then st
  else
    let fadeTime := cfg.simulation_speed * cfg.fade_amount
    let totalCycleTime := fadeTime + cfg.stable_display_time
    if st.isFading = false ∧ totalCycleTime ≤ ts - st.lastUpdate then
      if cfg.color_mode then updateColored cfg st o innerW innerH ts
      else updateStandard cfg st o innerW innerH ts
    else if st.isFading then
      let fadeProgress := min ((ts - st.fadeStartTime) / fadeTime) 1
      if 1 ≤ fadeProgress then
        if cfg.color_mode then
          { st with
            coloredGrid := st.targetColoredGrid,
            targetColoredGrid := [], isFading := false }
        else
          { st with grid := st.targetGrid, targetGrid := [], isFading := false }
      else st
    else st

/-- Per-grid (opacity, color) pair computed inside the color-mode fade
branch of renderGrid (lines 527-553): the color defaults to black there. -/
def renderPairColored (cfg : GameSettings) (g : ColoredGridState) (x y : ℕ) :
    ℚ × CellColor :=
  let cell := get2 g deadCell x y
  if cell.alive && cell.color.isSome then
    (1, cell.color.getD { r := 0, g := 0, b := 0 })
  else if cfg.neighbor_opacity_enabled then
    let nd := countNeighborsColored cfg.edge_wrapping g x y
    if 0 < nd.count then
      (min ((nd.count : ℚ) * cfg.neighbor_opacity_increment) (8 / 10),
        averageColors nd.colors)
    else (0, { r := 0, g := 0, b := 0 })
  else (0, { r := 0, g := 0, b := 0 })

/-- Color-mode single-grid render of a cell (renderGrid lines 559-575): the
(alpha, r, g, b) the cell is drawn with when no fade blend applies; alpha
and color start from 0 and the default foreground color. -/
def renderCellColored (cfg : GameSettings) (g : ColoredGridState) (x y : ℕ) :
    ℚ × CellColor :=
  let cell := get2 g deadCell x y
  if cell.alive && cell.color.isSome then
    (1, cell.color.getD cfg.foreground)
  else if cfg.neighbor_opacity_enabled then
    let nd := countNeighborsColored cfg.edge_wrapping g x y
    if 0 < nd.count then
      (min ((nd.count : ℚ) * cfg.neighbor_opacity_increment) (8 / 10),
        averageColors nd.colors)
    else (0, cfg.foreground)
  else (0, cfg.foreground)

/-- Color-mode fade blend of a cell (renderGrid lines 526-558): linear
interpolation of the per-grid opacity and of each rounded color channel. -/
def renderCellColoredFade (cfg : GameSettings) (cur tgt : ColoredGridState)
    (x y : ℕ) (p : ℚ) : ℚ × CellColor :=
  let c := renderPairColored cfg cur x y
  let t := renderPairColored cfg tgt x y
  (c.1 * (1 - p) + t.1 * p,
    { r := jsRound ((c.2.r : ℚ) * (1 - p) + (t.2.r : ℚ) * p),
      g := jsRound ((c.2.g : ℚ) * (1 - p) + (t.2.g : ℚ) * p),
      b := jsRound ((c.2.b : ℚ) * (1 - p) + (t.2.b : ℚ) * p) })

/-- Standard-mode per-grid opacity of a cell (renderGrid lines 580-599 and
602-610 compute this same quantity). -/
def renderAlphaStandard (cfg : GameSettings) (g : GridState) (x y : ℕ) : ℚ :=
  if get2 g false x y then 1
  else if cfg.neighbor_opacity_enabled then
    let n := countNeighbors cfg.edge_wrapping g x y
    if 0 < n then min ((n : ℚ) * cfg.neighbor_opacity_increment) (8 / 10) else 0
  else 0

/-- Standard-mode single-grid render of a cell: the RGB channels keep the
default foreground color in every standard-mode branch. -/
def renderCellStandard (cfg : GameSettings) (g : GridState) (x y : ℕ) :
    ℚ × CellColor :=
  (renderAlphaStandard cfg g x y, cfg.foreground)

/-- Standard-mode fade blend of a cell (lines 580-601): only the opacity is
interpolated; the color stays the default foreground. -/
def renderCellStandardFade (cfg : GameSettings) (cur tgt : GridState)
    (x y : ℕ) (p : ℚ) : ℚ × CellColor :=
  (renderAlphaStandard cfg cur x y * (1 - p) + renderAlphaStandard cfg tgt x y * p,
    cfg.foreground)

/-- Data-model invariant of a colored cell (spec section 3): color and age
are present exactly when the cell is alive. -/
def CellInv (c : ColoredCell) : Prop :=
  (c.alive = true ↔ c.color.isSome = true) ∧ (c.alive = true ↔ c.age.isSome = true)

/-- The cell invariant, for every cell of a colored grid. -/
def GridInv (g : ColoredGridState) : Prop :=
  ∀ row ∈ g, ∀ c ∈ row, CellInv c

instance : DecidablePred CellInv := fun c => by unfold CellInv; infer_instance

instance (g : ColoredGridState) : Decidable (GridInv g) := by
  unfold GridInv; infer_instance

/-! ## Helper lemmas about list indexing -/

/-- Reading a cell of a grid built cellwise over the index ranges. -/
theorem get2_map_range {α : Type} (h w : ℕ) (f : ℕ → ℕ → α) (d : α) {x y : ℕ}
    (hx : x < h) (hy : y < w) :
    get2 ((List.range h).map fun x => (List.range w).map fun y => f x y) d x y = f x y := by
  simp [get2, List.getD_eq_getElem?_getD, List.getElem?_range, hx, hy]

/-- Out of range on the left index, get2 yields the default. -/
theorem get2_out_row {α : Type} {g : List (List α)} {d : α} {x : ℕ} (y : ℕ)
    (hx : g.length ≤ x) : get2 g d x y = d := by
  simp [get2, List.getD_eq_getElem?_getD, List.getElem?_eq_none hx]

/-- Out of range on the right index, get2 yields the default. -/
theorem get2_out_col {α : Type} {g : List (List α)} {d : α} {x y : ℕ}
    (hy : (g.getD x []).length ≤ y) : get2 g d x y = d := by
  unfold get2
  rw [List.getD_eq_getElem?_getD (g.getD x []), List.getElem?_eq_none hy]
  rfl

/-- getD commutes with map when the default is mapped as well. -/
theorem getD_map_fn {α β : Type} (l : List α) (f : α → β) (d : α) (i : ℕ) :
    (l.map f).getD i (f d) = f (l.getD i d) := by
  induction l generalizing i with
  | nil => simp
  | cons a l ih => cases i <;> simp [ih]

/-- The alive-pattern projection of a colored grid, used to compare colored
neighbor counting with plain neighbor counting. -/
def aliveGrid (g : ColoredGridState) : GridState :=
  g.map fun row => row.map ColoredCell.alive

/-- Reading the alive projection of a colored grid. -/
theorem get2_proj_alive (g : ColoredGridState) (x y : ℕ) :
    get2 (aliveGrid g) false x y = (get2 g deadCell x y).alive := by
  unfold get2 aliveGrid
  have h1 := getD_map_fn g (fun row => row.map ColoredCell.alive) [] x
  simp only [List.map_nil] at h1
  rw [h1]
  exact getD_map_fn (g.getD x []) ColoredCell.alive deadCell y

/-- The alive projection keeps height and width. -/
theorem aliveGrid_dims (g : ColoredGridState) :
    (aliveGrid g).length = g.length ∧
      ((aliveGrid g).headD []).length = (g.headD []).length := by
  cases g <;> simp [aliveGrid]

/-- Every cell read out of an invariant grid (defaults included) satisfies
the cell invariant. -/
theorem cellInv_get2 {g : ColoredGridState} (hinv : GridInv g) (x y : ℕ) :
    CellInv (get2 g deadCell x y) := by
  have hdead : CellInv deadCell := by constructor <;> simp [deadCell]
  unfold get2
  by_cases hx : x < g.length
  · have hrow : g.getD x [] = g[x] := by
      rw [List.getD_eq_getElem?_getD g, List.getElem?_eq_getElem hx]
      rfl
    rw [hrow]
    by_cases hy : y < (g[x]).length
    · have hcell : (g[x]).getD y deadCell = (g[x])[y] := by
        rw [List.getD_eq_getElem?_getD (g[x]), List.getElem?_eq_getElem hy]
        rfl
      rw [hcell]
      exact hinv _ (List.getElem_mem hx) _ (List.getElem_mem hy)
    · rw [List.getD_eq_getElem?_getD (g[x]),
        List.getElem?_eq_none (Nat.le_of_not_lt hy)]
      exact hdead
  · rw [List.getD_eq_getElem?_getD g, List.getElem?_eq_none (Nat.le_of_not_lt hx)]
    exact hdead

/-- Reading outside a cellwise-built grid yields the default. -/
theorem get2_map_range_out {α : Type} (h w : ℕ) (f : ℕ → ℕ → α) (d : α) {x y : ℕ}
    (hxy : h ≤ x ∨ w ≤ y) :
    get2 ((List.range h).map fun x => (List.range w).map fun y => f x y) d x y = d := by
  rcases hxy with hx | hy
  · apply get2_out_row
    simpa using hx
  · apply get2_out_col
    by_cases hx : x < h
    · simp [List.getD_eq_getElem?_getD, List.getElem?_map, List.getElem?_range, hx, hy]
    · rw [List.getD_eq_getElem?_getD, List.getElem?_eq_none]
      · simp
      · simpa using Nat.le_of_not_lt hx

/-- Two folds over the same list agree on the count component when the
step functions agree on it. -/
theorem foldl_count_rel {β : Type} (offs : List β)
    (fC : NeighborData → β → NeighborData) (fP : ℕ → β → ℕ)
    (hstep : ∀ (a : NeighborData) (o : β), (fC a o).count = fP a.count o) :
    ∀ a : NeighborData, (offs.foldl fC a).count = offs.foldl fP a.count := by
  induction offs with
  | nil => intro a; rfl
  | cons o os ih =>
    intro a
    rw [List.foldl_cons, List.foldl_cons, ih (fC a o), hstep]

/-- Under the data-model invariant, the colored neighbor count equals the
plain neighbor count of the alive projection: the colored counter only
counts cells that are alive and have a color, and the invariant makes the
color test redundant. -/
theorem countColored_count_eq (wrap : Bool) {g : ColoredGridState} (hinv : GridInv g)
    (x y : ℕ) :
    (countNeighborsColored wrap g x y).count = countNeighbors wrap (aliveGrid g) x y := by
  simp only [countNeighborsColored, countNeighbors]
  rw [(aliveGrid_dims g).1, (aliveGrid_dims g).2]
  refine foldl_count_rel _ _ _ ?_ _
  intro a off
  have hcond : ∀ px py : ℕ,
      (match (get2 g deadCell px py).color with
        | some c =>
          if (get2 g deadCell px py).alive then
            ({ count := a.count + 1,
               colors := a.colors ++ [c],
               ages := a.ages ++ [jsAgeOr1 (get2 g deadCell px py).age] } : NeighborData)
          else a
        | none => a).count
        = if get2 (aliveGrid g) false px py then a.count + 1 else a.count := by
    intro px py
    have hc := cellInv_get2 hinv px py
    rw [get2_proj_alive]
    rcases hcol : (get2 g deadCell px py).color with _ | c
    · have : (get2 g deadCell px py).alive = false := by
        rcases h : (get2 g deadCell px py).alive with _ | _
        · rfl
        · exact absurd (hc.1.mp h) (by simp [hcol])
      simp [this]
    · rcases hal : (get2 g deadCell px py).alive with _ | _
      · simp [hal]
      · simp [hal]
  cases wrap
  · simp only [Bool.false_eq_true, if_false]
    by_cases hout : ((x : Int) + off.1 < 0 ∨ (g.length : Int) ≤ (x : Int) + off.1 ∨
        (y : Int) + off.2 < 0 ∨ ((g.headD []).length : Int) ≤ (y : Int) + off.2)
    · simp only [if_pos hout]
    · simp only [if_neg hout]
      exact hcond _ _
  · simp only [if_true]
    exact hcond _ _

/-- C1: for in-range positions the cell of the grid returned by
nextGeneration (and the alive field of the cell returned by
nextGenerationColored) is alive exactly when the input cell is alive with
neighbor count 2 or 3, or dead with neighbor count exactly 3; under the
data-model invariant the colored neighbor count is the live count of the
alive pattern (modulo-wrapped or clipped as edge_wrapping dictates); every
position outside the grid is dead. -/
theorem nextGeneration_rule (cfg : GameSettings) (rnd : ℕ → ℕ → BirthRand) (wrap : Bool)
    (g : GridState) (gc : ColoredGridState) (x y : ℕ) :
    (x < g.length → y < (g.headD []).length →
      get2 (nextGeneration wrap g) false x y =
        ((get2 g false x y
            && (countNeighbors wrap g x y == 2 || countNeighbors wrap g x y == 3))
          || (!(get2 g false x y) && (countNeighbors wrap g x y == 3))))
    ∧ (g.length ≤ x ∨ (g.headD []).length ≤ y →
        get2 (nextGeneration wrap g) false x y = false)
    ∧ (x < gc.length → y < (gc.headD []).length →
        (get2 (nextGenerationColored cfg rnd gc) deadCell x y).alive =
          (((get2 gc deadCell x y).alive
              && ((countNeighborsColored cfg.edge_wrapping gc x y).count == 2
                || (countNeighborsColored cfg.edge_wrapping gc x y).count == 3))
            || (!(get2 gc deadCell x y).alive
              && ((countNeighborsColored cfg.edge_wrapping gc x y).count == 3))))
    ∧ (GridInv gc →
        (countNeighborsColored cfg.edge_wrapping gc x y).count
          = countNeighbors cfg.edge_wrapping (aliveGrid gc) x y)
    ∧ (gc.length ≤ x ∨ (gc.headD []).length ≤ y →
        (get2 (nextGenerationColored cfg rnd gc) deadCell x y).alive = false) := by
  refine ⟨?_, ?_, ?_, ?_, ?_⟩
  · intro hx hy
    simp only [nextGeneration]
    exact get2_map_range _ _ _ _ hx hy
  · intro hxy
    simp only [nextGeneration]
    exact get2_map_range_out _ _ _ _ hxy
  · intro hx hy
    simp only [nextGenerationColored]
    rw [get2_map_range _ _ _ _ hx hy]
    cases h1 : ((get2 gc deadCell x y).alive
        && ((countNeighborsColored cfg.edge_wrapping gc x y).count == 2
          || (countNeighborsColored cfg.edge_wrapping gc x y).count == 3)) <;>
      cases h2 : (!(get2 gc deadCell x y).alive
        && ((countNeighborsColored cfg.edge_wrapping gc x y).count == 3)) <;>
      simp [h1, h2, deadCell]
  · intro hinv
    exact countColored_count_eq cfg.edge_wrapping hinv x y
  · intro hxy
    simp only [nextGenerationColored]
    rw [get2_map_range_out _ _ _ _ hxy]
    rfl

/-- Witness for C1 at a concrete blinker grid and a concrete colored grid. -/
theorem nextGeneration_rule_witness :
    (0 : ℕ) < ([[false, true, false], [false, true, false], [false, true, false]] :
        GridState).length ∧
    get2 (nextGeneration false
        [[false, true, false], [false, true, false], [false, true, false]]) false 1 0 = true := by
  constructor
  · decide
  · have h := (nextGeneration_rule
      { simulation_speed := 2000, fade_amount := 1, stable_display_time := 0,
        edge_wrapping := false, cell_size := 25, cell_padding := 4, bottom_margin := 0,
        color_mode := true, try_revive_stuck_sim := true, hard_reset_on_stuck := false,
        max_revival_attempts := 5, neighbor_opacity_enabled := true,
        neighbor_opacity_increment := 3 / 20, random_color_pure := false,
        max_saturation_age := 15, saturation_factor := 3 / 10,
        foreground := ⟨29, 185, 84⟩ }
      (fun _ _ => ⟨false, ⟨0, 0, 0⟩, 0, false⟩) false
      [[false, true, false], [false, true, false], [false, true, false]] [[deadCell]] 1 0).1
      (by decide) (by decide)
    rw [h]
    decide

/-- The source DEFAULT_SETTINGS (App.tsx lines 53-75), with the hex colors
parsed: foreground #1db954 is (29, 185, 84). -/
def DEFAULT_SETTINGS : GameSettings :=
  { simulation_speed := 2000, fade_amount := 1, stable_display_time := 0,
    edge_wrapping := true, cell_size := 25, cell_padding := 4, bottom_margin := 0,
    color_mode := true, try_revive_stuck_sim := true, hard_reset_on_stuck := false,
    max_revival_attempts := 5, neighbor_opacity_enabled := true,
    neighbor_opacity_increment := 3 / 20, random_color_pure := false,
    max_saturation_age := 15, saturation_factor := 3 / 10,
    foreground := ⟨29, 185, 84⟩ }

/-- Rounding an integer changes nothing. -/
theorem jsRound_intCast (n : ℤ) : jsRound (n : ℚ) = n := by
  unfold jsRound
  rw [add_comm, Int.floor_add_int]
  norm_num

/-- C7: with age 0 the saturation enhancement returns a color with channels
in [0,255] unchanged, and from max_saturation_age (at least 1 per the
settings range) onward the scale is exactly 1 + saturation_factor. -/
theorem saturation_endpoints (cfg : GameSettings) (c : CellColor) (age : ℕ) :
    (0 ≤ c.r → c.r ≤ 255 → 0 ≤ c.g → c.g ≤ 255 → 0 ≤ c.b → c.b ≤ 255 →
      enhanceColorSaturation cfg c 0 = c)
    ∧ (1 ≤ cfg.max_saturation_age → cfg.max_saturation_age ≤ age →
      saturationScale cfg age = 1 + cfg.saturation_factor) := by
  constructor
  · intro hr0 hr1 hg0 hg1 hb0 hb1
    have hscale : saturationScale cfg 0 = 1 := by
      simp [saturationScale]
    obtain ⟨r, g, b⟩ := c
    simp only at hr0 hr1 hg0 hg1 hb0 hb1
    simp only [enhanceColorSaturation, hscale, CellColor.mk.injEq]
    have hch : ∀ ch : ℤ, 0 ≤ ch → ch ≤ 255 →
        jsRound (max 0 (min 255
          ((((r : ℚ) + (g : ℚ) + (b : ℚ)) / 3
            + ((ch : ℚ) - ((r : ℚ) + (g : ℚ) + (b : ℚ)) / 3) * 1)))) = ch := by
      intro ch hl hu
      have heq : ((r : ℚ) + (g : ℚ) + (b : ℚ)) / 3
          + ((ch : ℚ) - ((r : ℚ) + (g : ℚ) + (b : ℚ)) / 3) * 1 = (ch : ℚ) := by
        ring
      rw [heq, min_eq_right (by exact_mod_cast hu),
        max_eq_right (by exact_mod_cast hl), jsRound_intCast]
    exact ⟨hch r hr0 hr1, hch g hg0 hg1, hch b hb0 hb1⟩
  · intro h1 hle
    unfold saturationScale
    rw [min_eq_right hle]
    have hpos : (0 : ℚ) < (cfg.max_saturation_age : ℚ) := by
      exact_mod_cast Nat.lt_of_lt_of_le Nat.zero_lt_one h1
    rw [div_self (ne_of_gt hpos)]
    ring

/-- Witness for C7 at the default settings, a concrete color and age 20. -/
theorem saturation_endpoints_witness :
    enhanceColorSaturation DEFAULT_SETTINGS ⟨10, 200, 90⟩ 0 = ⟨10, 200, 90⟩ ∧
      saturationScale DEFAULT_SETTINGS 20 = 1 + DEFAULT_SETTINGS.saturation_factor := by
  have h := saturation_endpoints DEFAULT_SETTINGS ⟨10, 200, 90⟩ 20
  exact ⟨h.1 (by norm_num) (by norm_num) (by norm_num) (by norm_num) (by norm_num)
      (by norm_num),
    h.2 (by decide) (by decide)⟩

/-- Folding addition over a constant list. -/
theorem foldl_add_const (w : ℕ) (l : List ℕ) : ∀ n : ℕ, (∀ x ∈ l, x = w) →
    l.foldl (· + ·) n = n + l.length * w := by
  induction l with
  | nil => intro n _; simp
  | cons x xs ih =>
    intro n hconst
    have hx : x = w := hconst x (by simp)
    subst hx
    rw [List.foldl_cons, ih (n + x) (fun y hy => hconst y (by simp [hy]))]
    simp [Nat.succ_mul]
    omega

/-- Component values of the averageColors fold: start value plus the sums
of the channels. -/
theorem foldColor_sum (colors : List CellColor) : ∀ init : CellColor,
    (colors.foldl
        (fun acc c => { r := acc.r + c.r, g := acc.g + c.g, b := acc.b + c.b })
        init).r = init.r + (colors.map CellColor.r).sum ∧
    (colors.foldl
        (fun acc c => { r := acc.r + c.r, g := acc.g + c.g, b := acc.b + c.b })
        init).g = init.g + (colors.map CellColor.g).sum ∧
    (colors.foldl
        (fun acc c => { r := acc.r + c.r, g := acc.g + c.g, b := acc.b + c.b })
        init).b = init.b + (colors.map CellColor.b).sum := by
  induction colors with
  | nil => intro init; simp
  | cons c cs ih =>
    intro init
    obtain ⟨h1, h2, h3⟩ := ih { r := init.r + c.r, g := init.g + c.g, b := init.b + c.b }
    rw [List.foldl_cons]
    refine ⟨?_, ?_, ?_⟩ <;> simp only [h1, h2, h3, List.map_cons, List.sum_cons] <;> ring

/-- Component values of the weighted fold when every weight equals w. -/
theorem foldWeighted_sum (w : ℕ) (colors : List CellColor) :
    ∀ (ws : List ℕ) (init : CellColor), (∀ x ∈ ws, x = w) →
      colors.length = ws.length →
      ((colors.zip ws).foldl
          (fun acc cw =>
            { r := acc.r + cw.1.r * (cw.2 : ℤ),
              g := acc.g + cw.1.g * (cw.2 : ℤ),
              b := acc.b + cw.1.b * (cw.2 : ℤ) })
          init).r = init.r + (colors.map CellColor.r).sum * (w : ℤ) ∧
      ((colors.zip ws).foldl
          (fun acc cw =>
            { r := acc.r + cw.1.r * (cw.2 : ℤ),
              g := acc.g + cw.1.g * (cw.2 : ℤ),
              b := acc.b + cw.1.b * (cw.2 : ℤ) })
          init).g = init.g + (colors.map CellColor.g).sum * (w : ℤ) ∧
      ((colors.zip ws).foldl
          (fun acc cw =>
            { r := acc.r + cw.1.r * (cw.2 : ℤ),
              g := acc.g + cw.1.g * (cw.2 : ℤ),
              b := acc.b + cw.1.b * (cw.2 : ℤ) })
          init).b = init.b + (colors.map CellColor.b).sum * (w : ℤ) := by
  induction colors with
  | nil =>
    intro ws init _ _
    simp
  | cons c cs ih =>
    intro ws init hconst hlen
    cases ws with
    | nil => exact absurd hlen (by simp)
    | cons w' ws' =>
      have hw' : w' = w := hconst w' (by simp)
      subst hw'
      obtain ⟨h1, h2, h3⟩ := ih ws'
        { r := init.r + c.r * (w' : ℤ), g := init.g + c.g * (w' : ℤ),
          b := init.b + c.b * (w' : ℤ) }
        (fun x hx => hconst x (by simp [hx])) (by simpa using hlen)
      rw [List.zip_cons_cons, List.foldl_cons]
      refine ⟨?_, ?_, ?_⟩ <;>
        simp only [h1, h2, h3, List.map_cons, List.sum_cons] <;> ring

/-- C8: with all ages equal (and matching lengths), the age-weighted average
of a nonempty color list is the plain average: the common weight cancels
from numerator and denominator. -/
theorem averageColorsWeighted_const (colors : List CellColor) (ages : List ℕ) (a : ℕ)
    (hne : colors ≠ []) (hlen : colors.length = ages.length)
    (hconst : ∀ x ∈ ages, x = a) :
    averageColorsWeighted colors ages = averageColors colors := by
  have hlen0 : ¬ colors.length = 0 := by
    simpa [List.length_eq_zero] using hne
  have hwne : (if a = 0 then 1 else a) ≠ 0 := by split <;> omega
  have hws : ∀ x ∈ ages.map (fun a => if a = 0 then 1 else a),
      x = (if a = 0 then 1 else a) := by
    intro x hx
    obtain ⟨y, hy, rfl⟩ := List.mem_map.mp hx
    rw [hconst y hy]
  have hmaplen : colors.length = (ages.map (fun a => if a = 0 then 1 else a)).length := by
    simpa using hlen
  obtain ⟨hr, hg, hb⟩ :=
    foldWeighted_sum (if a = 0 then 1 else a) colors _ ⟨0, 0, 0⟩ hws hmaplen
  obtain ⟨hr2, hg2, hb2⟩ := foldColor_sum colors ⟨0, 0, 0⟩
  have htw := foldl_add_const (if a = 0 then 1 else a)
    (ages.map (fun a => if a = 0 then 1 else a)) 0 hws
  have hwQ : ((if a = 0 then 1 else a : ℕ) : ℚ) ≠ 0 := Nat.cast_ne_zero.mpr hwne
  have harg : ∀ S : ℤ,
      ((((0 : ℤ) + S * ((if a = 0 then 1 else a : ℕ) : ℤ)) : ℤ) : ℚ)
          / (((0 + (ages.map (fun a => if a = 0 then 1 else a)).length
              * (if a = 0 then 1 else a) : ℕ)) : ℚ)
        = ((((0 : ℤ) + S) : ℤ) : ℚ) / ((colors.length : ℕ) : ℚ) := by
    intro S
    rw [List.length_map, ← hlen]
    simp only [zero_add]
    rw [Int.cast_mul, Nat.cast_mul, Int.cast_natCast]
    exact mul_div_mul_right _ _ hwQ
  simp only [averageColorsWeighted, averageColors, if_neg hlen0,
    if_neg (show ¬ colors.length ≠ ages.length from fun h => h hlen)]
  simp only [hr, hg, hb, hr2, hg2, hb2, htw, CellColor.mk.injEq]
  exact ⟨congrArg jsRound (harg _), congrArg jsRound (harg _), congrArg jsRound (harg _)⟩

/-- Witness for C8 at two concrete colors with both ages equal to 3. -/
theorem averageColorsWeighted_const_witness :
    averageColorsWeighted [⟨10, 20, 30⟩, ⟨11, 21, 31⟩] [3, 3]
      = averageColors [⟨10, 20, 30⟩, ⟨11, 21, 31⟩] :=
  averageColorsWeighted_const _ _ 3 (by decide) (by decide) (by decide)


/-- A two-dimensional write preserves the number of rows. -/
theorem set2_length {α : Type} (g : List (List α)) (x y : ℕ) (v : α) :
    (set2 g x y v).length = g.length := by
  simp [set2]

/-- A two-dimensional write preserves the row widths. -/
theorem set2_rows {α : Type} {g : List (List α)} {w : ℕ}
    (hrows : ∀ row ∈ g, row.length = w) (x y : ℕ) (v : α) :
    ∀ row ∈ set2 g x y v, row.length = w := by
  intro row hrow
  by_cases hx : x < g.length
  · unfold set2 at hrow
    rcases List.mem_or_eq_of_mem_set hrow with h | rfl
    · exact hrows _ h
    · rw [List.length_set]
      have hgx : g.getD x [] = g[x] := by
        rw [List.getD_eq_getElem?_getD, List.getElem?_eq_getElem hx]
        rfl
      rw [hgx]
      exact hrows _ (List.getElem_mem hx)
  · unfold set2 at hrow
    rw [List.set_eq_of_length_le (Nat.le_of_not_lt hx)] at hrow
    exact hrows _ hrow

/-- Unfolding one flip iteration of flipRandomCells. -/
theorem flipRandomCells_succ (g : GridState) (n : ℕ) (pick : ℕ → ℕ × ℕ) :
    flipRandomCells g (n + 1) pick =
      set2 (flipRandomCells g n pick) (pick n).1 (pick n).2
        (!(get2 (flipRandomCells g n pick) false (pick n).1 (pick n).2)) := by
  unfold flipRandomCells
  rw [List.range_succ, List.foldl_append, List.foldl_cons, List.foldl_nil]

/-- Unfolding one flip iteration of flipRandomCellsColored. -/
theorem flipRandomCellsColored_succ (g : ColoredGridState) (n : ℕ)
    (pick : ℕ → ℕ × ℕ) (pickColor : ℕ → CellColor) :
    flipRandomCellsColored g (n + 1) pick pickColor =
      set2 (flipRandomCellsColored g n pick pickColor) (pick n).1 (pick n).2
        { alive := !(get2 (flipRandomCellsColored g n pick pickColor) deadCell
            (pick n).1 (pick n).2).alive,
          color := if !(get2 (flipRandomCellsColored g n pick pickColor) deadCell
              (pick n).1 (pick n).2).alive then some (pickColor n) else none,
          age := if !(get2 (flipRandomCellsColored g n pick pickColor) deadCell
              (pick n).1 (pick n).2).alive then some 1 else none } := by
  unfold flipRandomCellsColored
  rw [List.range_succ, List.foldl_append, List.foldl_cons, List.foldl_nil]

/-- flipRandomCells preserves height and row widths. -/
theorem flipRandomCells_dims (g : GridState) (pick : ℕ → ℕ × ℕ) {w : ℕ}
    (hrows : ∀ row ∈ g, row.length = w) : ∀ n : ℕ,
    (flipRandomCells g n pick).length = g.length ∧
      ∀ row ∈ flipRandomCells g n pick, row.length = w := by
  intro n
  induction n with
  | zero => exact ⟨rfl, hrows⟩
  | succ n ih =>
    rw [flipRandomCells_succ]
    exact ⟨by rw [set2_length, ih.1], set2_rows ih.2 _ _ _⟩

/-- flipRandomCellsColored preserves height and row widths. -/
theorem flipRandomCellsColored_dims (g : ColoredGridState) (pick : ℕ → ℕ × ℕ)
    (pickColor : ℕ → CellColor) {w : ℕ}
    (hrows : ∀ row ∈ g, row.length = w) : ∀ n : ℕ,
    (flipRandomCellsColored g n pick pickColor).length = g.length ∧
      ∀ row ∈ flipRandomCellsColored g n pick pickColor, row.length = w := by
  intro n
  induction n with
  | zero => exact ⟨rfl, hrows⟩
  | succ n ih =>
    rw [flipRandomCellsColored_succ]
    exact ⟨by rw [set2_length, ih.1], set2_rows ih.2 _ _ _⟩

/-- C10: nextGeneration, nextGenerationColored and both cell-flip helpers
return a grid of the same height as the input whose rows all have the input
width, for every flip count and every random draw. -/
theorem operations_preserve_dims (cfg : GameSettings) (rnd : ℕ → ℕ → BirthRand)
    (wrap : Bool) (g : GridState) (gc : ColoredGridState) (n : ℕ)
    (pick : ℕ → ℕ × ℕ) (pickColor : ℕ → CellColor)
    (_hg1 : 1 ≤ g.length) (_hg2 : 1 ≤ (g.headD []).length)
    (hrectg : ∀ row ∈ g, row.length = (g.headD []).length)
    (_hc1 : 1 ≤ gc.length) (_hc2 : 1 ≤ (gc.headD []).length)
    (hrectc : ∀ row ∈ gc, row.length = (gc.headD []).length) :
    ((nextGeneration wrap g).length = g.length ∧
      ∀ row ∈ nextGeneration wrap g, row.length = (g.headD []).length) ∧
    ((nextGenerationColored cfg rnd gc).length = gc.length ∧
      ∀ row ∈ nextGenerationColored cfg rnd gc, row.length = (gc.headD []).length) ∧
    ((flipRandomCells g n pick).length = g.length ∧
      ∀ row ∈ flipRandomCells g n pick, row.length = (g.headD []).length) ∧
    ((flipRandomCellsColored gc n pick pickColor).length = gc.length ∧
      ∀ row ∈ flipRandomCellsColored gc n pick pickColor,
        row.length = (gc.headD []).length) := by
  refine ⟨⟨?_, ?_⟩, ⟨?_, ?_⟩, flipRandomCells_dims g pick hrectg n,
    flipRandomCellsColored_dims gc pick pickColor hrectc n⟩
  · simp [nextGeneration]
  · intro row hrow
    simp only [nextGeneration, List.mem_map] at hrow
    obtain ⟨x, _, rfl⟩ := hrow
    simp
  · simp [nextGenerationColored]
  · intro row hrow
    simp only [nextGenerationColored, List.mem_map] at hrow
    obtain ⟨x, _, rfl⟩ := hrow
    simp

/-- Witness for C10 at concrete 2 by 2 grids and flip count 3. -/
theorem operations_preserve_dims_witness :
    (nextGeneration true [[true, false], [false, true]]).length = 2 ∧
      (flipRandomCellsColored
        [[deadCell, deadCell], [deadCell, deadCell]] 3
        (fun i => (i, i)) (fun _ => ⟨1, 2, 3⟩)).length = 2 := by
  have h := operations_preserve_dims DEFAULT_SETTINGS
    (fun _ _ => ⟨false, ⟨0, 0, 0⟩, 0, false⟩) true
    [[true, false], [false, true]] [[deadCell, deadCell], [deadCell, deadCell]] 3
    (fun i => (i, i)) (fun _ => ⟨1, 2, 3⟩)
    (by decide) (by decide) (by decide) (by decide) (by decide) (by decide)
  exact ⟨h.1.1, h.2.2.2.1⟩

/-- The dead cell satisfies the invariant. -/
theorem cellInv_deadCell : CellInv deadCell := by
  constructor <;> simp [deadCell]

/-- A two-dimensional write of an invariant cell preserves the grid
invariant. -/
theorem gridInv_set2 {g : ColoredGridState} (hinv : GridInv g) {c : ColoredCell}
    (hc : CellInv c) (x y : ℕ) : GridInv (set2 g x y c) := by
  intro row hrow cc hcc
  unfold set2 at hrow
  rcases List.mem_or_eq_of_mem_set hrow with h | rfl
  · exact hinv _ h _ hcc
  · rcases List.mem_or_eq_of_mem_set hcc with h2 | rfl
    · by_cases hx : x < g.length
      · have hgx : g.getD x [] = g[x] := by
          rw [List.getD_eq_getElem?_getD, List.getElem?_eq_getElem hx]
          rfl
        rw [hgx] at h2
        exact hinv _ (List.getElem_mem hx) _ h2
      · have hgx : g.getD x [] = [] := by
          rw [List.getD_eq_getElem?_getD, List.getElem?_eq_none (Nat.le_of_not_lt hx)]
          rfl
        rw [hgx] at h2
        cases h2
    · exact hc

/-- C9: createRandomColoredGrid establishes, and nextGenerationColored and
flipRandomCellsColored preserve, the invariant that color and age are
present exactly when the cell is alive, for every random draw. -/
theorem colored_invariant (cfg : GameSettings) (rnd : ℕ → ℕ → BirthRand)
    (width height : ℕ) (aliveAt : ℕ → ℕ → Bool) (colorAt : ℕ → ℕ → CellColor)
    (gc : ColoredGridState) (n : ℕ) (pick : ℕ → ℕ × ℕ) (pickColor : ℕ → CellColor) :
    GridInv (createRandomColoredGrid width height aliveAt colorAt) ∧
    (GridInv gc → GridInv (nextGenerationColored cfg rnd gc)) ∧
    (GridInv gc → GridInv (flipRandomCellsColored gc n pick pickColor)) := by
  refine ⟨?_, ?_, ?_⟩
  · intro row hrow c hc
    simp only [createRandomColoredGrid, List.mem_map] at hrow
    obtain ⟨x, _, rfl⟩ := hrow
    simp only [List.mem_map] at hc
    obtain ⟨y, _, rfl⟩ := hc
    cases h : aliveAt x y <;> constructor <;> simp [h]
  · intro hinv row hrow c hc
    simp only [nextGenerationColored, List.mem_map] at hrow
    obtain ⟨x, _, rfl⟩ := hrow
    simp only [List.mem_map] at hc
    obtain ⟨y, _, rfl⟩ := hc
    split
    · next hcond =>
      have halive : (get2 gc deadCell x y).alive = true :=
        (Bool.and_eq_true _ _).mp hcond |>.1
      have hsome : (get2 gc deadCell x y).color.isSome = true :=
        (cellInv_get2 hinv x y).1.mp halive
      constructor <;> simp [Option.isSome_map, hsome]
    · split
      · constructor <;> simp
      · exact cellInv_deadCell
  · intro hinv
    induction n with
    | zero => exact hinv
    | succ n ih =>
      rw [flipRandomCellsColored_succ]
      apply gridInv_set2 ih
      cases h : (get2 (flipRandomCellsColored gc n pick pickColor) deadCell
          (pick n).1 (pick n).2).alive <;> constructor <;> simp [h]

/-- Witness for C9 at a concrete fresh grid, generation step and flip. -/
theorem colored_invariant_witness :
    GridInv (createRandomColoredGrid 2 2 (fun x y => x = y) (fun _ _ => ⟨7, 8, 9⟩)) ∧
      GridInv (nextGenerationColored DEFAULT_SETTINGS
        (fun _ _ => ⟨false, ⟨0, 0, 0⟩, 0, false⟩)
        [[⟨true, some ⟨1, 2, 3⟩, some 1⟩, deadCell], [deadCell, deadCell]]) := by
  have h := colored_invariant DEFAULT_SETTINGS (fun _ _ => ⟨false, ⟨0, 0, 0⟩, 0, false⟩)
    2 2 (fun x y => x = y) (fun _ _ => ⟨7, 8, 9⟩)
    [[⟨true, some ⟨1, 2, 3⟩, some 1⟩, deadCell], [deadCell, deadCell]]
    1 (fun i => (i, i)) (fun _ => ⟨4, 5, 6⟩)
  exact ⟨h.1, h.2.1 (by decide)⟩

/-- One step of runStuck. -/
theorem runStuck_cons (h : List (List Char)) (g : GridState) (gs : List GridState) :
    runStuck h (g :: gs) = runStuck (isSimulationStuck h g).2 gs := rfl

/-- The recorded-fingerprint update of a fresh, live fingerprint. -/
theorem isSimulationStuck_snd_fresh (h : List (List Char)) (g : GridState)
    (hlive : hasLiveCells g = true) (hfresh : gridToString g ∉ h) :
    (isSimulationStuck h g).2 =
      if 10 < (h ++ [gridToString g]).length then (h ++ [gridToString g]).tail
      else h ++ [gridToString g] := by
  have hcont : h.contains (gridToString g) = false := by
    simpa using hfresh
  unfold isSimulationStuck stuckStep
  rw [hlive, hcont]
  simp

/-- Closed form of the history after a run of fresh live recordings: the
history window keeps the last ten of the initial history followed by the
recorded fingerprints. -/
theorem runStuck_closed (gs : List GridState) : ∀ h : List (List Char),
    h.length ≤ 10 →
    (∀ g ∈ gs, hasLiveCells g = true) →
    (gs.map gridToString).Nodup →
    (∀ s ∈ gs.map gridToString, s ∉ h) →
    runStuck h gs = (h ++ gs.map gridToString).drop (h.length + gs.length - 10) := by
  induction gs with
  | nil =>
    intro h hle _ _ _
    simp [runStuck]
    rw [Nat.sub_eq_zero_of_le (by omega), List.drop_zero]
  | cons g gs ih =>
    intro h hle hlive hnodup hfresh
    have hfp : gridToString g ∉ h := hfresh _ (by simp)
    have hlg : hasLiveCells g = true := hlive g (by simp)
    rw [runStuck_cons, isSimulationStuck_snd_fresh h g hlg hfp]
    have hnodup' : (gs.map gridToString).Nodup := (List.nodup_cons.mp (by simpa using hnodup)).2
    have hne : gridToString g ∉ gs.map gridToString :=
      (List.nodup_cons.mp (by simpa using hnodup)).1
    rcases Nat.lt_or_ge h.length 10 with hlt | hge
    · have hnotail : ¬ 10 < (h ++ [gridToString g]).length := by
        simp
        omega
      rw [if_neg hnotail]
      have hfresh' : ∀ s ∈ gs.map gridToString, s ∉ h ++ [gridToString g] := by
        intro s hs
        simp only [List.mem_append, List.mem_singleton]
        rintro (hin | rfl)
        · exact hfresh s (by simp [hs]) hin
        · exact hne hs
      rw [ih (h ++ [gridToString g]) (by simp; omega) (fun g' hg' => hlive g' (by simp [hg']))
        hnodup' hfresh']
      have e1 : (h ++ [gridToString g]).length + gs.length - 10
          = h.length + (g :: gs).length - 10 := by
        simp
        omega
      have e2 : (h ++ [gridToString g]) ++ gs.map gridToString
          = h ++ (g :: gs).map gridToString := by
        simp
      rw [e1, e2]
    · have hlen10 : h.length = 10 := le_antisymm hle hge
      have htail : 10 < (h ++ [gridToString g]).length := by
        simp
        omega
      rw [if_pos htail]
      cases h with
      | nil => simp at hlen10
      | cons hd tl =>
        have htl : ((hd :: tl) ++ [gridToString g]).tail = tl ++ [gridToString g] := by
          simp
        rw [htl]
        have hfresh' : ∀ s ∈ gs.map gridToString, s ∉ tl ++ [gridToString g] := by
          intro s hs
          simp only [List.mem_append, List.mem_singleton]
          rintro (hin | rfl)
          · exact hfresh s (by simp [hs]) (by simp [hin])
          · exact hne hs
        have hlentl : (tl ++ [gridToString g]).length = 10 := by
          simp at hlen10 ⊢
          omega
        rw [ih (tl ++ [gridToString g]) (by omega)
          (fun g' hg' => hlive g' (by simp [hg'])) hnodup' hfresh']
        rw [hlentl, List.append_assoc]
        simp only [List.map_cons, List.length_cons, List.singleton_append]
        have h1 : 10 + gs.length - 10 = gs.length := by omega
        have h2 : tl.length + 1 + (gs.length + 1) - 10 = gs.length + 1 := by
          simp only [List.length_cons] at hlen10
          omega
        rw [h1, h2]
        rw [List.cons_append, List.drop_succ_cons]

/-- C4: for a grid with live cells the detector reports stuck exactly when
the fingerprint is in the current (at most 10 entry) history, in both grid
representations; every call keeps the history at 10 entries or fewer; and
after 10 fresh recordings any older fingerprint has been evicted and a grid
carrying it is no longer flagged. -/
theorem isSimulationStuck_window (h : List (List Char)) (g : GridState)
    (gc : ColoredGridState) (gs : List GridState) (f : List Char) :
    (hasLiveCells g = true →
      ((isSimulationStuck h g).1 = true ↔ gridToString g ∈ h)) ∧
    (hasLiveCellsColored gc = true →
      ((isSimulationStuckColored h gc).1 = true ↔ coloredGridToString gc ∈ h)) ∧
    (h.length ≤ 10 → (isSimulationStuck h g).2.length ≤ 10) ∧
    (h.length ≤ 10 → gs.length = 10 →
      (∀ g' ∈ gs, hasLiveCells g' = true) →
      (gs.map gridToString).Nodup →
      (∀ s ∈ gs.map gridToString, s ∉ h) →
      f ∉ gs.map gridToString →
      f ∉ runStuck h gs ∧
        ∀ g' : GridState, gridToString g' = f → hasLiveCells g' = true →
          (isSimulationStuck (runStuck h gs) g').1 = false) := by
  refine ⟨?_, ?_, ?_, ?_⟩
  · intro hlive
    unfold isSimulationStuck stuckStep
    rw [hlive]
    by_cases hc : gridToString g ∈ h
    · have : h.contains (gridToString g) = true := by simpa using hc
      simp [this, hc]
    · have : h.contains (gridToString g) = false := by simpa using hc
      simp [this, hc]
  · intro hlive
    unfold isSimulationStuckColored stuckStep
    rw [hlive]
    by_cases hc : coloredGridToString gc ∈ h
    · have : h.contains (coloredGridToString gc) = true := by simpa using hc
      simp [this, hc]
    · have : h.contains (coloredGridToString gc) = false := by simpa using hc
      simp [this, hc]
  · intro hle
    unfold isSimulationStuck stuckStep
    cases hasLiveCells g
    · simpa using hle
    · by_cases hc : h.contains (gridToString g) = true
      · have hmem : gridToString g ∈ h := by simpa using hc
        simp [hmem, hle]
      · rw [Bool.not_eq_true] at hc
        rw [hc]
        simp only [Bool.not_true, Bool.false_eq_true, if_false]
        split
        · next hgt =>
          simp only [List.length_tail, List.length_append, List.length_singleton]
          omega
        · next hgt =>
          simp only [List.length_append, List.length_singleton] at hgt ⊢
          omega
  · intro hle hlen hlive hnodup hfresh hf
    have hrun : runStuck h gs = gs.map gridToString := by
      rw [runStuck_closed gs h hle hlive hnodup hfresh, hlen]
      have : h.length + 10 - 10 = h.length := by omega
      rw [this, List.drop_left]
    constructor
    · rw [hrun]
      exact hf
    · intro g' hfp hlive'
      unfold isSimulationStuck stuckStep
      rw [hlive']
      have hcont : (runStuck h gs).contains (gridToString g') = false := by
        rw [hrun, hfp]
        simpa using hf
      rw [hcont]
      simp

/-- Witness for C4: a one-cell live grid is flagged against a history
holding its fingerprint, and after recordings of ten fresh fingerprints the
old fingerprint 01 is evicted and no longer flagged. -/
theorem isSimulationStuck_window_witness :
    ((isSimulationStuck [[ '1' ]] [[true]]).1 = true) ∧
      (( '0' :: [ '1' ]) ∉ runStuck [[ '0', '1' ]]
        [[List.replicate 1 true], [List.replicate 2 true], [List.replicate 3 true],
         [List.replicate 4 true], [List.replicate 5 true], [List.replicate 6 true],
         [List.replicate 7 true], [List.replicate 8 true], [List.replicate 9 true],
         [List.replicate 10 true]]) ∧
      (isSimulationStuck (runStuck [[ '0', '1' ]]
        [[List.replicate 1 true], [List.replicate 2 true], [List.replicate 3 true],
         [List.replicate 4 true], [List.replicate 5 true], [List.replicate 6 true],
         [List.replicate 7 true], [List.replicate 8 true], [List.replicate 9 true],
         [List.replicate 10 true]]) [[false, true]]).1 = false := by
  refine ⟨?_, ?_, ?_⟩
  · exact ((isSimulationStuck_window [[ '1' ]] [[true]] [] [] []).1 (by decide)).mpr
      (by decide)
  · exact ((isSimulationStuck_window [[ '0', '1' ]] [] [] _ ( '0' :: [ '1' ])).2.2.2
      (by decide) (by decide) (by decide) (by decide) (by decide) (by decide)).1
  · exact ((isSimulationStuck_window [[ '0', '1' ]] [] [] _ ( '0' :: [ '1' ])).2.2.2
      (by decide) (by decide) (by decide) (by decide) (by decide) (by decide)).2
      [[false, true]] (by decide) (by decide)

/-- The fade-branch per-grid pair and the single-grid render agree on the
opacity. -/
theorem renderPair_alpha (cfg : GameSettings) (g : ColoredGridState) (x y : ℕ) :
    (renderPairColored cfg g x y).1 = (renderCellColored cfg g x y).1 := by
  simp only [renderPairColored, renderCellColored]
  split_ifs <;> rfl

/-- The fade-branch per-grid pair and the single-grid render agree on the
color whenever the opacity is positive (the colors may differ only at
opacity zero, where the cell is not drawn). -/
theorem renderPair_color_pos (cfg : GameSettings) (g : ColoredGridState) (x y : ℕ)
    (hpos : 0 < (renderCellColored cfg g x y).1) :
    (renderPairColored cfg g x y).2 = (renderCellColored cfg g x y).2 := by
  simp only [renderCellColored] at hpos
  simp only [renderPairColored, renderCellColored]
  split_ifs at hpos ⊢ with h1 h2 h3
  · obtain ⟨v, hv⟩ := Option.isSome_iff_exists.mp ((Bool.and_eq_true _ _).mp h1).2
    rw [hv]
    rfl
  · rfl
  · exact absurd hpos (by norm_num)
  · exact absurd hpos (by norm_num)

/-- Linear blend of rounded integer channels at the endpoints. -/
theorem jsRound_blend_zero (a b : ℤ) :
    jsRound ((a : ℚ) * (1 - 0) + (b : ℚ) * 0) = a := by
  have h : ((a : ℚ) * (1 - 0) + (b : ℚ) * 0) = (a : ℚ) := by ring
  rw [h, jsRound_intCast]

/-- Linear blend of rounded integer channels at progress one. -/
theorem jsRound_blend_one (a b : ℤ) :
    jsRound ((a : ℚ) * (1 - 1) + (b : ℚ) * 1) = b := by
  have h : ((a : ℚ) * (1 - 1) + (b : ℚ) * 1) = (b : ℚ) := by ring
  rw [h, jsRound_intCast]

/-- C6: the fade blend at progress 0 draws exactly what rendering the
current grid alone draws, and at progress 1 exactly what rendering the
target grid alone draws: opacities agree always, and colors agree whenever
the opacity is positive (a cell with zero alpha is not drawn); in standard
mode both the blended opacity and the constant foreground color agree. -/
theorem renderFade_endpoints (cfg : GameSettings) (cur tgt : ColoredGridState)
    (curB tgtB : GridState) (x y : ℕ) :
    ((renderCellColoredFade cfg cur tgt x y 0).1 = (renderCellColored cfg cur x y).1 ∧
      (0 < (renderCellColored cfg cur x y).1 →
        (renderCellColoredFade cfg cur tgt x y 0).2 = (renderCellColored cfg cur x y).2)) ∧
    ((renderCellColoredFade cfg cur tgt x y 1).1 = (renderCellColored cfg tgt x y).1 ∧
      (0 < (renderCellColored cfg tgt x y).1 →
        (renderCellColoredFade cfg cur tgt x y 1).2 = (renderCellColored cfg tgt x y).2)) ∧
    ((renderCellStandardFade cfg curB tgtB x y 0).1 = (renderCellStandard cfg curB x y).1 ∧
      (renderCellStandardFade cfg curB tgtB x y 0).2 = (renderCellStandard cfg curB x y).2) ∧
    ((renderCellStandardFade cfg curB tgtB x y 1).1 = (renderCellStandard cfg tgtB x y).1 ∧
      (renderCellStandardFade cfg curB tgtB x y 1).2 = (renderCellStandard cfg tgtB x y).2) := by
  refine ⟨⟨?_, ?_⟩, ⟨?_, ?_⟩, ⟨?_, rfl⟩, ⟨?_, rfl⟩⟩
  · simp only [renderCellColoredFade]
    rw [← renderPair_alpha]
    ring
  · intro hpos
    simp only [renderCellColoredFade]
    rw [jsRound_blend_zero, jsRound_blend_zero, jsRound_blend_zero,
      ← renderPair_color_pos cfg cur x y hpos]
  · simp only [renderCellColoredFade]
    rw [← renderPair_alpha]
    ring
  · intro hpos
    simp only [renderCellColoredFade]
    rw [jsRound_blend_one, jsRound_blend_one, jsRound_blend_one,
      ← renderPair_color_pos cfg tgt x y hpos]
  · simp only [renderCellStandardFade, renderCellStandard]
    ring
  · simp only [renderCellStandardFade, renderCellStandard]
    ring

/-- Witness for C6 at a concrete live colored cell and a standard-mode
fade at progress one. -/
theorem renderFade_endpoints_witness :
    (renderCellColoredFade DEFAULT_SETTINGS [[⟨true, some ⟨5, 6, 7⟩, some 1⟩]]
        [[deadCell]] 0 0 0).2
      = (renderCellColored DEFAULT_SETTINGS [[⟨true, some ⟨5, 6, 7⟩, some 1⟩]] 0 0).2 ∧
    (renderCellStandardFade DEFAULT_SETTINGS [[true]] [[false]] 0 0 1).1
      = (renderCellStandard DEFAULT_SETTINGS [[false]] 0 0).1 := by
  have h := renderFade_endpoints DEFAULT_SETTINGS [[⟨true, some ⟨5, 6, 7⟩, some 1⟩]]
    [[deadCell]] [[true]] [[false]] 0 0
  refine ⟨h.1.2 ?_, h.2.2.2.1⟩
  norm_num [renderCellColored, get2]

/-- A tick in color mode with a nonempty grid, no running fade and an
elapsed cycle runs the color-mode update phase. -/
theorem gameLoopTick_runs_colored (cfg : GameSettings) (st : SimState) (o : TickRand)
    (iW iH ts : ℚ) (hcm : cfg.color_mode = true) (hne : st.coloredGrid ≠ [])
    (hf : st.isFading = false)
    (ht : cfg.simulation_speed * cfg.fade_amount + cfg.stable_display_time
      ≤ ts - st.lastUpdate) :
    gameLoopTick cfg st o iW iH ts = updateColored cfg st o iW iH ts := by
  have hempty : st.coloredGrid.isEmpty = false := by
    simpa [List.isEmpty_iff] using hne
  unfold gameLoopTick
  rw [hcm]
  simp only [if_true, hempty, Bool.false_eq_true, if_false]
  rw [if_pos ⟨hf, ht⟩]

/-- A tick in standard mode with a nonempty grid, no running fade and an
elapsed cycle runs the standard-mode update phase. -/
theorem gameLoopTick_runs_standard (cfg : GameSettings) (st : SimState) (o : TickRand)
    (iW iH ts : ℚ) (hcm : cfg.color_mode = false) (hne : st.grid ≠ [])
    (hf : st.isFading = false)
    (ht : cfg.simulation_speed * cfg.fade_amount + cfg.stable_display_time
      ≤ ts - st.lastUpdate) :
    gameLoopTick cfg st o iW iH ts = updateStandard cfg st o iW iH ts := by
  have hempty : st.grid.isEmpty = false := by
    simpa [List.isEmpty_iff] using hne
  unfold gameLoopTick
  rw [hcm]
  simp only [Bool.false_eq_true, if_false, hempty]
  rw [if_pos ⟨hf, ht⟩]

/-- An empty grid is classified stuck without touching the history. -/
theorem stuckStep_dead (h : List (List Char)) (s : List Char) :
    stuckStep h false s = (true, h) := rfl

/-- The color-mode update phase resets fully when the proposed grid has no
live cells, whatever the recovery toggles say. -/
theorem updateColored_extinct (cfg : GameSettings) (st : SimState) (o : TickRand)
    (iW iH ts : ℚ)
    (hdead : hasLiveCellsColored (nextGenerationColored cfg o.birth st.coloredGrid)
      = false) :
    updateColored cfg st o iW iH ts = resetColored cfg st o iW iH ts := by
  have hstuck : (isSimulationStuckColored st.history
      (nextGenerationColored cfg o.birth st.coloredGrid)).1 = true := by
    unfold isSimulationStuckColored
    rw [hdead, stuckStep_dead]
  simp only [updateColored, hstuck, if_true, hdead, Bool.not_false, Bool.false_eq_true,
    if_false]
  cases hh : cfg.hard_reset_on_stuck <;> simp

/-- The standard-mode update phase resets fully when the proposed grid has
no live cells. -/
theorem updateStandard_extinct (cfg : GameSettings) (st : SimState) (o : TickRand)
    (iW iH ts : ℚ)
    (hdead : hasLiveCells (nextGeneration cfg.edge_wrapping st.grid) = false) :
    updateStandard cfg st o iW iH ts = resetStandard cfg st o iW iH ts := by
  have hstuck : (isSimulationStuck st.history
      (nextGeneration cfg.edge_wrapping st.grid)).1 = true := by
    unfold isSimulationStuck
    rw [hdead, stuckStep_dead]
  simp only [updateStandard, hstuck, if_true, hdead, Bool.not_false, Bool.false_eq_true,
    if_false]
  cases hh : cfg.hard_reset_on_stuck <;> simp

/-- The color-mode update phase resets fully when a live stuck grid is met
with the counter already at max_revival_attempts (revival on, hard reset
off), for every fibonacciIndex. -/
theorem updateColored_maxed (cfg : GameSettings) (st : SimState) (o : TickRand)
    (iW iH ts : ℚ)
    (hstuck : (isSimulationStuckColored st.history
      (nextGenerationColored cfg o.birth st.coloredGrid)).1 = true)
    (hlive : hasLiveCellsColored (nextGenerationColored cfg o.birth st.coloredGrid)
      = true)
    (hhard : cfg.hard_reset_on_stuck = false)
    (hrev : cfg.try_revive_stuck_sim = true)
    (hsc : cfg.max_revival_attempts < st.stuckCounter + 1) :
    updateColored cfg st o iW iH ts = resetColored cfg st o iW iH ts := by
  simp only [updateColored, hstuck, if_true, hlive, hhard, hrev, Bool.not_true,
    Bool.false_eq_true, if_false, if_pos hsc]

/-- The standard-mode analogue of the maxed-out reset. -/
theorem updateStandard_maxed (cfg : GameSettings) (st : SimState) (o : TickRand)
    (iW iH ts : ℚ)
    (hstuck : (isSimulationStuck st.history
      (nextGeneration cfg.edge_wrapping st.grid)).1 = true)
    (hlive : hasLiveCells (nextGeneration cfg.edge_wrapping st.grid) = true)
    (hhard : cfg.hard_reset_on_stuck = false)
    (hrev : cfg.try_revive_stuck_sim = true)
    (hsc : cfg.max_revival_attempts < st.stuckCounter + 1) :
    updateStandard cfg st o iW iH ts = resetStandard cfg st o iW iH ts := by
  simp only [updateStandard, hstuck, if_true, hlive, hhard, hrev, Bool.not_true,
    Bool.false_eq_true, if_false, if_pos hsc]

/-- The color-mode update phase with hard_reset_on_stuck enabled resets
fully on any stuck classification. -/
theorem updateColored_hard (cfg : GameSettings) (st : SimState) (o : TickRand)
    (iW iH ts : ℚ)
    (hstuck : (isSimulationStuckColored st.history
      (nextGenerationColored cfg o.birth st.coloredGrid)).1 = true)
    (hhard : cfg.hard_reset_on_stuck = true) :
    updateColored cfg st o iW iH ts = resetColored cfg st o iW iH ts := by
  simp only [updateColored, hstuck, if_true, hhard]

/-- The standard-mode update phase with hard_reset_on_stuck enabled resets
fully on any stuck classification. -/
theorem updateStandard_hard (cfg : GameSettings) (st : SimState) (o : TickRand)
    (iW iH ts : ℚ)
    (hstuck : (isSimulationStuck st.history
      (nextGeneration cfg.edge_wrapping st.grid)).1 = true)
    (hhard : cfg.hard_reset_on_stuck = true) :
    updateStandard cfg st o iW iH ts = resetStandard cfg st o iW iH ts := by
  simp only [updateStandard, hstuck, if_true, hhard]

/-- The color-mode update phase on a live stuck grid in the revival path
below both escalation guards: flips fibonacci(fibonacciIndex) cells into
the target grid and leaves the displayed grid for the finish step. -/
theorem updateColored_flip (cfg : GameSettings) (st : SimState) (o : TickRand)
    (iW iH ts : ℚ)
    (hstuck : (isSimulationStuckColored st.history
      (nextGenerationColored cfg o.birth st.coloredGrid)).1 = true)
    (hlive : hasLiveCellsColored (nextGenerationColored cfg o.birth st.coloredGrid)
      = true)
    (hhard : cfg.hard_reset_on_stuck = false)
    (hrev : cfg.try_revive_stuck_sim = true)
    (hsc : st.stuckCounter + 1 ≤ cfg.max_revival_attempts)
    (hfib : (fibonacci st.fibonacciIndex : ℚ)
      ≤ (st.coloredGrid.length * (st.coloredGrid.headD []).length : ℕ) / 3) :
    updateColored cfg st o iW iH ts =
      finishColored cfg st
        { st with
          history := (isSimulationStuckColored st.history
            (nextGenerationColored cfg o.birth st.coloredGrid)).2,
          stuckCounter := st.stuckCounter + 1,
          fibonacciIndex := st.fibonacciIndex + 1,
          targetColoredGrid := flipRandomCellsColored
            (nextGenerationColored cfg o.birth st.coloredGrid)
            (fibonacci st.fibonacciIndex) o.flipPos o.flipColor }
        o ts := by
  simp only [updateColored, hstuck, if_true, hlive, hhard, hrev, Bool.not_true,
    Bool.false_eq_true, if_false, if_neg (not_lt.mpr hsc), if_neg (not_lt.mpr hfib)]

/-- The standard-mode analogue of the perturbation branch. -/
theorem updateStandard_flip (cfg : GameSettings) (st : SimState) (o : TickRand)
    (iW iH ts : ℚ)
    (hstuck : (isSimulationStuck st.history
      (nextGeneration cfg.edge_wrapping st.grid)).1 = true)
    (hlive : hasLiveCells (nextGeneration cfg.edge_wrapping st.grid) = true)
    (hhard : cfg.hard_reset_on_stuck = false)
    (hrev : cfg.try_revive_stuck_sim = true)
    (hsc : st.stuckCounter + 1 ≤ cfg.max_revival_attempts)
    (hfib : (fibonacci st.fibonacciIndex : ℚ)
      ≤ (st.grid.length * (st.grid.headD []).length : ℕ) / 3) :
    updateStandard cfg st o iW iH ts =
      finishStandard cfg st
        { st with
          history := (isSimulationStuck st.history
            (nextGeneration cfg.edge_wrapping st.grid)).2,
          stuckCounter := st.stuckCounter + 1,
          fibonacciIndex := st.fibonacciIndex + 1,
          targetGrid := flipRandomCells (nextGeneration cfg.edge_wrapping st.grid)
            (fibonacci st.fibonacciIndex) o.flipPos }
        o ts := by
  simp only [updateStandard, hstuck, if_true, hlive, hhard, hrev, Bool.not_true,
    Bool.false_eq_true, if_false, if_neg (not_lt.mpr hsc), if_neg (not_lt.mpr hfib)]

/-- With a configured fade, the finish step starts the fade and keeps both
the displayed grid and the just-set target grid. -/
theorem finishColored_fade (cfg : GameSettings) (stOld stNew : SimState) (o : TickRand)
    (ts : ℚ) (hfa : 0 < cfg.fade_amount)
    (hft : 0 < cfg.simulation_speed * cfg.fade_amount) :
    finishColored cfg stOld stNew o ts =
      { stNew with isFading := true, fadeStartTime := ts, lastUpdate := ts } := by
  unfold finishColored
  rw [if_pos ⟨hfa, hft⟩]

/-- Standard-mode finish with a configured fade. -/
theorem finishStandard_fade (cfg : GameSettings) (stOld stNew : SimState) (o : TickRand)
    (ts : ℚ) (hfa : 0 < cfg.fade_amount)
    (hft : 0 < cfg.simulation_speed * cfg.fade_amount) :
    finishStandard cfg stOld stNew o ts =
      { stNew with isFading := true, fadeStartTime := ts, lastUpdate := ts } := by
  unfold finishStandard
  rw [if_pos ⟨hfa, hft⟩]

/-- C2: whenever an update tick proposes a next grid with zero live cells,
the tick performs a full reset - fresh random grid of the recomputed
dimensions displayed, history cleared, stuckCounter and fibonacciIndex
zeroed - for every setting combination, in both modes. -/
theorem tick_extinction_always_resets (cfg : GameSettings) (st : SimState)
    (o : TickRand) (iW iH ts : ℚ)
    (hf : st.isFading = false)
    (ht : cfg.simulation_speed * cfg.fade_amount + cfg.stable_display_time
      ≤ ts - st.lastUpdate) :
    (cfg.color_mode = true → st.coloredGrid ≠ [] →
      hasLiveCellsColored (nextGenerationColored cfg o.birth st.coloredGrid) = false →
      (gameLoopTick cfg st o iW iH ts).coloredGrid
          = createRandomColoredGrid (calculateGridDimensions cfg iW iH).1
            (calculateGridDimensions cfg iW iH).2 o.freshAlive o.freshColor ∧
        (gameLoopTick cfg st o iW iH ts).history = [] ∧
        (gameLoopTick cfg st o iW iH ts).stuckCounter = 0 ∧
        (gameLoopTick cfg st o iW iH ts).fibonacciIndex = 0) ∧
    (cfg.color_mode = false → st.grid ≠ [] →
      hasLiveCells (nextGeneration cfg.edge_wrapping st.grid) = false →
      (gameLoopTick cfg st o iW iH ts).grid
          = createRandomGrid (calculateGridDimensions cfg iW iH).1
            (calculateGridDimensions cfg iW iH).2 o.freshAlive ∧
        (gameLoopTick cfg st o iW iH ts).history = [] ∧
        (gameLoopTick cfg st o iW iH ts).stuckCounter = 0 ∧
        (gameLoopTick cfg st o iW iH ts).fibonacciIndex = 0) := by
  constructor
  · intro hcm hne hdead
    rw [gameLoopTick_runs_colored cfg st o iW iH ts hcm hne hf ht,
      updateColored_extinct cfg st o iW iH ts hdead]
    exact ⟨rfl, rfl, rfl, rfl⟩
  · intro hcm hne hdead
    rw [gameLoopTick_runs_standard cfg st o iW iH ts hcm hne hf ht,
      updateStandard_extinct cfg st o iW iH ts hdead]
    exact ⟨rfl, rfl, rfl, rfl⟩

/-- Witness for C2: a lone live cell on a toroidal 1 by 1 grid dies, and
the tick resets counters and history and installs the fresh random grid. -/
theorem tick_extinction_always_resets_witness :
    (gameLoopTick DEFAULT_SETTINGS
        ⟨[], [[⟨true, some ⟨1, 2, 3⟩, some 1⟩]], [], [], false, 0, 0,
          [[ '0' ]], 3, 2⟩
        ⟨fun _ _ => ⟨false, ⟨0, 0, 0⟩, 0, false⟩, fun _ _ => ⟨false, ⟨0, 0, 0⟩, 0, false⟩,
         fun _ _ => false, fun _ _ => ⟨0, 0, 0⟩, fun _ => (0, 0), fun _ => ⟨0, 0, 0⟩⟩
        29 29 5000).history = [] ∧
    (gameLoopTick DEFAULT_SETTINGS
        ⟨[], [[⟨true, some ⟨1, 2, 3⟩, some 1⟩]], [], [], false, 0, 0,
          [[ '0' ]], 3, 2⟩
        ⟨fun _ _ => ⟨false, ⟨0, 0, 0⟩, 0, false⟩, fun _ _ => ⟨false, ⟨0, 0, 0⟩, 0, false⟩,
         fun _ _ => false, fun _ _ => ⟨0, 0, 0⟩, fun _ => (0, 0), fun _ => ⟨0, 0, 0⟩⟩
        29 29 5000).stuckCounter = 0 := by
  have h := (tick_extinction_always_resets DEFAULT_SETTINGS
    ⟨[], [[⟨true, some ⟨1, 2, 3⟩, some 1⟩]], [], [], false, 0, 0, [[ '0' ]], 3, 2⟩
    ⟨fun _ _ => ⟨false, ⟨0, 0, 0⟩, 0, false⟩, fun _ _ => ⟨false, ⟨0, 0, 0⟩, 0, false⟩,
     fun _ _ => false, fun _ _ => ⟨0, 0, 0⟩, fun _ => (0, 0), fun _ => ⟨0, 0, 0⟩⟩
    29 29 5000 rfl (by norm_num [DEFAULT_SETTINGS])).1
    rfl (by decide) (by decide)
  exact ⟨h.2.1, h.2.2.1⟩

/-- C5: when a live proposed grid is classified stuck with revival enabled
and hard reset disabled while stuckCounter already equals
max_revival_attempts, the tick performs a full reset, for every value of
fibonacciIndex, in both modes. -/
theorem tick_max_attempts_resets (cfg : GameSettings) (st : SimState)
    (o : TickRand) (iW iH ts : ℚ)
    (hf : st.isFading = false)
    (ht : cfg.simulation_speed * cfg.fade_amount + cfg.stable_display_time
      ≤ ts - st.lastUpdate)
    (hhard : cfg.hard_reset_on_stuck = false)
    (hrev : cfg.try_revive_stuck_sim = true)
    (hsc : st.stuckCounter = cfg.max_revival_attempts) :
    (cfg.color_mode = true → st.coloredGrid ≠ [] →
      (isSimulationStuckColored st.history
        (nextGenerationColored cfg o.birth st.coloredGrid)).1 = true →
      hasLiveCellsColored (nextGenerationColored cfg o.birth st.coloredGrid) = true →
      (gameLoopTick cfg st o iW iH ts).coloredGrid
          = createRandomColoredGrid (calculateGridDimensions cfg iW iH).1
            (calculateGridDimensions cfg iW iH).2 o.freshAlive o.freshColor ∧
        (gameLoopTick cfg st o iW iH ts).history = [] ∧
        (gameLoopTick cfg st o iW iH ts).stuckCounter = 0 ∧
        (gameLoopTick cfg st o iW iH ts).fibonacciIndex = 0) ∧
    (cfg.color_mode = false → st.grid ≠ [] →
      (isSimulationStuck st.history
        (nextGeneration cfg.edge_wrapping st.grid)).1 = true →
      hasLiveCells (nextGeneration cfg.edge_wrapping st.grid) = true →
      (gameLoopTick cfg st o iW iH ts).grid
          = createRandomGrid (calculateGridDimensions cfg iW iH).1
            (calculateGridDimensions cfg iW iH).2 o.freshAlive ∧
        (gameLoopTick cfg st o iW iH ts).history = [] ∧
        (gameLoopTick cfg st o iW iH ts).stuckCounter = 0 ∧
        (gameLoopTick cfg st o iW iH ts).fibonacciIndex = 0) := by
  have hlt : cfg.max_revival_attempts < st.stuckCounter + 1 := by omega
  constructor
  · intro hcm hne hstuck hlive
    rw [gameLoopTick_runs_colored cfg st o iW iH ts hcm hne hf ht,
      updateColored_maxed cfg st o iW iH ts hstuck hlive hhard hrev hlt]
    exact ⟨rfl, rfl, rfl, rfl⟩
  · intro hcm hne hstuck hlive
    rw [gameLoopTick_runs_standard cfg st o iW iH ts hcm hne hf ht,
      updateStandard_maxed cfg st o iW iH ts hstuck hlive hhard hrev hlt]
    exact ⟨rfl, rfl, rfl, rfl⟩

/-- Witness for C5: a 2 by 2 block (still life without wrapping) repeats its
fingerprint with the counter already at the maximum, so the tick resets. -/
theorem tick_max_attempts_resets_witness :
    (gameLoopTick { DEFAULT_SETTINGS with edge_wrapping := false }
        ⟨[], [[⟨true, some ⟨0, 0, 0⟩, some 1⟩, ⟨true, some ⟨0, 0, 0⟩, some 1⟩],
              [⟨true, some ⟨0, 0, 0⟩, some 1⟩, ⟨true, some ⟨0, 0, 0⟩, some 1⟩]],
          [], [], false, 0, 0, [[ '1', '1', '1', '1' ]], 5, 7⟩
        ⟨fun _ _ => ⟨false, ⟨0, 0, 0⟩, 0, false⟩, fun _ _ => ⟨false, ⟨0, 0, 0⟩, 0, false⟩,
         fun _ _ => false, fun _ _ => ⟨0, 0, 0⟩, fun _ => (0, 0), fun _ => ⟨0, 0, 0⟩⟩
        29 29 5000).stuckCounter = 0 ∧
    (gameLoopTick { DEFAULT_SETTINGS with edge_wrapping := false }
        ⟨[], [[⟨true, some ⟨0, 0, 0⟩, some 1⟩, ⟨true, some ⟨0, 0, 0⟩, some 1⟩],
              [⟨true, some ⟨0, 0, 0⟩, some 1⟩, ⟨true, some ⟨0, 0, 0⟩, some 1⟩]],
          [], [], false, 0, 0, [[ '1', '1', '1', '1' ]], 5, 7⟩
        ⟨fun _ _ => ⟨false, ⟨0, 0, 0⟩, 0, false⟩, fun _ _ => ⟨false, ⟨0, 0, 0⟩, 0, false⟩,
         fun _ _ => false, fun _ _ => ⟨0, 0, 0⟩, fun _ => (0, 0), fun _ => ⟨0, 0, 0⟩⟩
        29 29 5000).history = [] := by
  have h := (tick_max_attempts_resets { DEFAULT_SETTINGS with edge_wrapping := false }
    ⟨[], [[⟨true, some ⟨0, 0, 0⟩, some 1⟩, ⟨true, some ⟨0, 0, 0⟩, some 1⟩],
          [⟨true, some ⟨0, 0, 0⟩, some 1⟩, ⟨true, some ⟨0, 0, 0⟩, some 1⟩]],
      [], [], false, 0, 0, [[ '1', '1', '1', '1' ]], 5, 7⟩
    ⟨fun _ _ => ⟨false, ⟨0, 0, 0⟩, 0, false⟩, fun _ _ => ⟨false, ⟨0, 0, 0⟩, 0, false⟩,
     fun _ _ => false, fun _ _ => ⟨0, 0, 0⟩, fun _ => (0, 0), fun _ => ⟨0, 0, 0⟩⟩
    29 29 5000 rfl (by norm_num [DEFAULT_SETTINGS]) rfl rfl rfl).1
    rfl (by decide) (by decide) (by decide)
  exact ⟨h.2.2.1, h.2.1⟩

/-- Counterexample to C3 as stated: this tick takes a recovery reset action
(extinction reset) and does not leave the current displayed grid unchanged;
the reset writes the fresh random grid into the displayed grid directly
(and clears the target) instead of replacing the target grid. -/
theorem reset_replaces_current_counterexample :
    (gameLoopTick DEFAULT_SETTINGS
        ⟨[], [[⟨true, some ⟨1, 2, 3⟩, some 1⟩]], [], [], false, 0, 0, [], 0, 0⟩
        ⟨fun _ _ => ⟨false, ⟨0, 0, 0⟩, 0, false⟩, fun _ _ => ⟨false, ⟨0, 0, 0⟩, 0, false⟩,
         fun _ _ => false, fun _ _ => ⟨0, 0, 0⟩, fun _ => (0, 0), fun _ => ⟨0, 0, 0⟩⟩
        29 29 5000).coloredGrid
      ≠ [[⟨true, some ⟨1, 2, 3⟩, some 1⟩]] := by
  rw [gameLoopTick_runs_colored _ _ _ _ _ _ rfl (by decide) rfl
      (by norm_num [DEFAULT_SETTINGS]),
    updateColored_extinct _ _ _ _ _ _ (by decide)]
  have hdims : calculateGridDimensions DEFAULT_SETTINGS 29 29 = (1, 1) := by
    norm_num [calculateGridDimensions, DEFAULT_SETTINGS]
  simp only [resetColored, hdims]
  decide

/-- C3 (amended): perturbation (cell-flip) actions replace the scheduler
target grid and, when a fade is configured (fade_amount > 0 and
fadeTime > 0), leave the current displayed grid unchanged so that the fade
transitions toward the perturbed state, while reset actions instead
replace the current displayed grid directly, clear the target grid and
cancel any fade; shown for both modes, with the hard reset as the
representative reset action. -/
theorem recovery_target_semantics (cfg : GameSettings) (st : SimState)
    (o : TickRand) (iW iH ts : ℚ)
    (hf : st.isFading = false)
    (ht : cfg.simulation_speed * cfg.fade_amount + cfg.stable_display_time
      ≤ ts - st.lastUpdate) :
    (cfg.color_mode = true → st.coloredGrid ≠ [] →
      (isSimulationStuckColored st.history
        (nextGenerationColored cfg o.birth st.coloredGrid)).1 = true →
      cfg.hard_reset_on_stuck = true →
      (gameLoopTick cfg st o iW iH ts).coloredGrid
          = createRandomColoredGrid (calculateGridDimensions cfg iW iH).1
            (calculateGridDimensions cfg iW iH).2 o.freshAlive o.freshColor ∧
        (gameLoopTick cfg st o iW iH ts).targetColoredGrid = [] ∧
        (gameLoopTick cfg st o iW iH ts).isFading = false) ∧
    (cfg.color_mode = true → st.coloredGrid ≠ [] →
      (isSimulationStuckColored st.history
        (nextGenerationColored cfg o.birth st.coloredGrid)).1 = true →
      hasLiveCellsColored (nextGenerationColored cfg o.birth st.coloredGrid) = true →
      cfg.hard_reset_on_stuck = false → cfg.try_revive_stuck_sim = true →
      st.stuckCounter + 1 ≤ cfg.max_revival_attempts →
      (fibonacci st.fibonacciIndex : ℚ)
        ≤ (st.coloredGrid.length * (st.coloredGrid.headD []).length : ℕ) / 3 →
      0 < cfg.fade_amount → 0 < cfg.simulation_speed * cfg.fade_amount →
      (gameLoopTick cfg st o iW iH ts).targetColoredGrid
          = flipRandomCellsColored (nextGenerationColored cfg o.birth st.coloredGrid)
            (fibonacci st.fibonacciIndex) o.flipPos o.flipColor ∧
        (gameLoopTick cfg st o iW iH ts).coloredGrid = st.coloredGrid ∧
        (gameLoopTick cfg st o iW iH ts).isFading = true) ∧
    (cfg.color_mode = false → st.grid ≠ [] →
      (isSimulationStuck st.history
        (nextGeneration cfg.edge_wrapping st.grid)).1 = true →
      cfg.hard_reset_on_stuck = true →
      (gameLoopTick cfg st o iW iH ts).grid
          = createRandomGrid (calculateGridDimensions cfg iW iH).1
            (calculateGridDimensions cfg iW iH).2 o.freshAlive ∧
        (gameLoopTick cfg st o iW iH ts).targetGrid = [] ∧
        (gameLoopTick cfg st o iW iH ts).isFading = false) ∧
    (cfg.color_mode = false → st.grid ≠ [] →
      (isSimulationStuck st.history
        (nextGeneration cfg.edge_wrapping st.grid)).1 = true →
      hasLiveCells (nextGeneration cfg.edge_wrapping st.grid) = true →
      cfg.hard_reset_on_stuck = false → cfg.try_revive_stuck_sim = true →
      st.stuckCounter + 1 ≤ cfg.max_revival_attempts →
      (fibonacci st.fibonacciIndex : ℚ)
        ≤ (st.grid.length * (st.grid.headD []).length : ℕ) / 3 →
      0 < cfg.fade_amount → 0 < cfg.simulation_speed * cfg.fade_amount →
      (gameLoopTick cfg st o iW iH ts).targetGrid
          = flipRandomCells (nextGeneration cfg.edge_wrapping st.grid)
            (fibonacci st.fibonacciIndex) o.flipPos ∧
        (gameLoopTick cfg st o iW iH ts).grid = st.grid ∧
        (gameLoopTick cfg st o iW iH ts).isFading = true) := by
  refine ⟨?_, ?_, ?_, ?_⟩
  · intro hcm hne hstuck hhard
    rw [gameLoopTick_runs_colored cfg st o iW iH ts hcm hne hf ht,
      updateColored_hard cfg st o iW iH ts hstuck hhard]
    exact ⟨rfl, rfl, rfl⟩
  · intro hcm hne hstuck hlive hhard hrev hsc hfib hfa hft
    rw [gameLoopTick_runs_colored cfg st o iW iH ts hcm hne hf ht,
      updateColored_flip cfg st o iW iH ts hstuck hlive hhard hrev hsc hfib,
      finishColored_fade cfg st _ o ts hfa hft]
    exact ⟨rfl, rfl, rfl⟩
  · intro hcm hne hstuck hhard
    rw [gameLoopTick_runs_standard cfg st o iW iH ts hcm hne hf ht,
      updateStandard_hard cfg st o iW iH ts hstuck hhard]
    exact ⟨rfl, rfl, rfl⟩
  · intro hcm hne hstuck hlive hhard hrev hsc hfib hfa hft
    rw [gameLoopTick_runs_standard cfg st o iW iH ts hcm hne hf ht,
      updateStandard_flip cfg st o iW iH ts hstuck hlive hhard hrev hsc hfib,
      finishStandard_fade cfg st _ o ts hfa hft]
    exact ⟨rfl, rfl, rfl⟩

/-- Witness for the amended C3: the perturbation tick on a stuck 2 by 2
block leaves the displayed grid untouched and starts the fade, and the hard
reset tick clears the target grid and stops the fade. -/
theorem recovery_target_semantics_witness :
    ((gameLoopTick { DEFAULT_SETTINGS with edge_wrapping := false }
        ⟨[], [[⟨true, some ⟨0, 0, 0⟩, some 1⟩, ⟨true, some ⟨0, 0, 0⟩, some 1⟩],
              [⟨true, some ⟨0, 0, 0⟩, some 1⟩, ⟨true, some ⟨0, 0, 0⟩, some 1⟩]],
          [], [], false, 0, 0, [[ '1', '1', '1', '1' ]], 0, 0⟩
        ⟨fun _ _ => ⟨false, ⟨0, 0, 0⟩, 0, false⟩, fun _ _ => ⟨false, ⟨0, 0, 0⟩, 0, false⟩,
         fun _ _ => false, fun _ _ => ⟨0, 0, 0⟩, fun _ => (0, 0), fun _ => ⟨0, 0, 0⟩⟩
        29 29 5000).coloredGrid
      = [[⟨true, some ⟨0, 0, 0⟩, some 1⟩, ⟨true, some ⟨0, 0, 0⟩, some 1⟩],
         [⟨true, some ⟨0, 0, 0⟩, some 1⟩, ⟨true, some ⟨0, 0, 0⟩, some 1⟩]]) ∧
    ((gameLoopTick { DEFAULT_SETTINGS with edge_wrapping := false }
        ⟨[], [[⟨true, some ⟨0, 0, 0⟩, some 1⟩, ⟨true, some ⟨0, 0, 0⟩, some 1⟩],
              [⟨true, some ⟨0, 0, 0⟩, some 1⟩, ⟨true, some ⟨0, 0, 0⟩, some 1⟩]],
          [], [], false, 0, 0, [[ '1', '1', '1', '1' ]], 0, 0⟩
        ⟨fun _ _ => ⟨false, ⟨0, 0, 0⟩, 0, false⟩, fun _ _ => ⟨false, ⟨0, 0, 0⟩, 0, false⟩,
         fun _ _ => false, fun _ _ => ⟨0, 0, 0⟩, fun _ => (0, 0), fun _ => ⟨0, 0, 0⟩⟩
        29 29 5000).isFading = true) ∧
    ((gameLoopTick { DEFAULT_SETTINGS with
          edge_wrapping := false, hard_reset_on_stuck := true }
        ⟨[], [[⟨true, some ⟨0, 0, 0⟩, some 1⟩, ⟨true, some ⟨0, 0, 0⟩, some 1⟩],
              [⟨true, some ⟨0, 0, 0⟩, some 1⟩, ⟨true, some ⟨0, 0, 0⟩, some 1⟩]],
          [], [], false, 0, 0, [[ '1', '1', '1', '1' ]], 0, 0⟩
        ⟨fun _ _ => ⟨false, ⟨0, 0, 0⟩, 0, false⟩, fun _ _ => ⟨false, ⟨0, 0, 0⟩, 0, false⟩,
         fun _ _ => false, fun _ _ => ⟨0, 0, 0⟩, fun _ => (0, 0), fun _ => ⟨0, 0, 0⟩⟩
        29 29 5000).targetColoredGrid = []) := by
  have hperturb := (recovery_target_semantics { DEFAULT_SETTINGS with edge_wrapping := false }
    ⟨[], [[⟨true, some ⟨0, 0, 0⟩, some 1⟩, ⟨true, some ⟨0, 0, 0⟩, some 1⟩],
          [⟨true, some ⟨0, 0, 0⟩, some 1⟩, ⟨true, some ⟨0, 0, 0⟩, some 1⟩]],
      [], [], false, 0, 0, [[ '1', '1', '1', '1' ]], 0, 0⟩
    ⟨fun _ _ => ⟨false, ⟨0, 0, 0⟩, 0, false⟩, fun _ _ => ⟨false, ⟨0, 0, 0⟩, 0, false⟩,
     fun _ _ => false, fun _ _ => ⟨0, 0, 0⟩, fun _ => (0, 0), fun _ => ⟨0, 0, 0⟩⟩
    29 29 5000 rfl (by norm_num [DEFAULT_SETTINGS])).2.1
    rfl (by decide) (by decide) (by decide) rfl rfl (by decide)
    (by norm_num [fibonacci]) (by norm_num [DEFAULT_SETTINGS])
    (by norm_num [DEFAULT_SETTINGS])
  have hhard := (recovery_target_semantics { DEFAULT_SETTINGS with
      edge_wrapping := false, hard_reset_on_stuck := true }
    ⟨[], [[⟨true, some ⟨0, 0, 0⟩, some 1⟩, ⟨true, some ⟨0, 0, 0⟩, some 1⟩],
          [⟨true, some ⟨0, 0, 0⟩, some 1⟩, ⟨true, some ⟨0, 0, 0⟩, some 1⟩]],
      [], [], false, 0, 0, [[ '1', '1', '1', '1' ]], 0, 0⟩
    ⟨fun _ _ => ⟨false, ⟨0, 0, 0⟩, 0, false⟩, fun _ _ => ⟨false, ⟨0, 0, 0⟩, 0, false⟩,
     fun _ _ => false, fun _ _ => ⟨0, 0, 0⟩, fun _ => (0, 0), fun _ => ⟨0, 0, 0⟩⟩
    29 29 5000 rfl (by norm_num [DEFAULT_SETTINGS])).1
    rfl (by decide) (by decide) rfl
  exact ⟨hperturb.2.1, hperturb.2.2, hhard.2.1⟩
